import Mathlib

/-!
Verification of the ContextGraph integration adapters
(`src/crewai/contextgraph_observer.py`, `src/langchain/contextgraph_callback.py`,
`src/langchain/contextgraph_middleware.py`).

The development shallowly embeds the parts of the Python sources that the
specification's claims are about:

* Python runtime values are the mutual inductives `PyVal` / `Entries` / `Vals`.
  `Entries` is an association list of string-keyed dict entries, `Vals` a list
  of values.  Objects are represented by constructors recording exactly the
  capabilities the code probes with `hasattr`: a callable `dict` attribute
  (`objDict`), a non-callable `dict` attribute (`objDictNotCallable`), a
  `dict` method that itself raises (`objDictRaises`), an attribute bag
  (`objAttrs`), or nothing (`other`, carrying `str(obj)`).  Floating point
  numbers are opaque literals (no claim computes with them).
* A Python exception propagating to the caller is the `.error` case of
  `Except String α`.
* The remote decision store is an oracle `net : Nat → Resp` giving the
  response to the n-th HTTP POST issued by the client; `World` records the
  POST counter, the trace of issued requests, and the timestamp string that
  `datetime.utcnow().isoformat()` returns during the call.
* Python dicts with string keys are association lists; `dput`/`dpop`/`dlookup`
  implement `d[k] = v`, `d.pop(k, None)` and lookup with
  replace-all/remove-all semantics, which coincide with Python's on every
  dict Python can actually build (keys unique).
-/

/-- A Python exception message.  An `Except.error` models an exception
propagating out of the translated code. -/
abbrev PyErr := String

mutual

/-- A Python runtime value, as discriminated by the `isinstance`/`hasattr`
chain of `_serialize` in the sources. -/
inductive PyVal where
  | none : PyVal
  | str (s : String) : PyVal
  | int (n : Int) : PyVal
  | float (lit : String) : PyVal
  | bool (b : Bool) : PyVal
  | dict (es : Entries) : PyVal
  | list (xs : Vals) : PyVal
  | tuple (xs : Vals) : PyVal
  /-- An object with a callable `dict` attribute; calling it returns `e`.
  `r` is the object's `str()` form. -/
  | objDict (e : PyVal) (r : String) : PyVal
  /-- An object whose `dict` attribute exists but is not callable: calling it
  raises `TypeError`. -/
  | objDictNotCallable (r : String) : PyVal
  /-- An object whose `dict()` method raises the exception `m`. -/
  | objDictRaises (m : String) (r : String) : PyVal
  /-- An object without a `dict` attribute but with a `__dict__` attribute
  bag `es`; `r` is its `str()` form. -/
  | objAttrs (es : Entries) (r : String) : PyVal
  /-- Any other object; `r` is its `str()` form. -/
  | other (r : String) : PyVal

/-- The entry list of a string-keyed Python dict, in insertion order. -/
inductive Entries where
  | nil : Entries
  | cons (k : String) (v : PyVal) (rest : Entries) : Entries

/-- The element list of a Python list or tuple. -/
inductive Vals where
  | nil : Vals
  | cons (v : PyVal) (rest : Vals) : Vals

end

namespace Entries

/-- Lookup of `d[key]` (first binding; Python dicts have unique keys). -/
def lookupE : Entries → String → Option PyVal
  | .nil, _ => Option.none
  | .cons k v rest, key => if k = key then some v else lookupE rest key

/-- `key in d`. -/
def hasKey : Entries → String → Bool
  | .nil, _ => false
  | .cons k _ rest, key => k = key || hasKey rest key

/-- Replace every binding of `key` by `v` (identical to Python's in-place
update on unique-key dicts). -/
def setAll : Entries → String → PyVal → Entries
  | .nil, _, _ => .nil
  | .cons k v rest, key, w => .cons k (if k = key then w else v) (setAll rest key w)

/-- Concatenation of entry lists. -/
def append : Entries → Entries → Entries
  | .nil, e => e
  | .cons k v rest, e => .cons k v (append rest e)

/-- `d[key] = v`: update in place when present, else append at the end —
Python dict assignment. -/
def insertE (d : Entries) (key : String) (v : PyVal) : Entries :=
  if d.hasKey key then d.setAll key v else d.append (.cons key v .nil)

/-- Insert every binding of `src` in order into `d`: the semantics of the
`**src` splat inside a dict literal. -/
def insertAll (d : Entries) : Entries → Entries
  | .nil => d
  | .cons k v rest => insertAll (d.insertE k v) rest

/-- The key list, in order. -/
def keys : Entries → List String
  | .nil => []
  | .cons k _ rest => k :: keys rest

/-- The value the last binding of `key` holds (what a Python dict built from
these pairs would hold at `key`). -/
def lookupLast : Entries → String → Option PyVal
  | .nil, _ => Option.none
  | .cons k v rest, key =>
    match lookupLast rest key with
    | some v2 => some v2
    | Option.none => if k = key then some v else Option.none

/-- Emptiness test: `bool(d)` is `!d.isEmptyE`. -/
def isEmptyE : Entries → Bool
  | .nil => true
  | .cons _ _ _ => false

end Entries

namespace Vals

/-- `xs[:n]`. -/
def take : Nat → Vals → Vals
  | 0, _ => .nil
  | _, .nil => .nil
  | n + 1, .cons v rest => .cons v (take n rest)

end Vals

mutual

/-- `str(v)` / `repr(v)` rendering. Only its totality matters to the claims:
callers truncate it and ship it in result payloads whose text no claim
inspects.  Containers render their elements via `repr`, as Python does. -/
def pyStr : PyVal → String
  | .none => "None"
  | .str s => s
  | .int n => toString n
  | .float lit => lit
  | .bool b => if b then "True" else "False"
  | .dict es => "\x7b" ++ pyReprEntries es ++ "\x7d"
  | .list xs => "[" ++ pyReprVals xs ++ "]"
  | .tuple xs => "(" ++ pyReprVals xs ++ ")"
  | .objDict _ r => r
  | .objDictNotCallable r => r
  | .objDictRaises _ r => r
  | .objAttrs _ r => r
  | .other r => r

/-- `repr(v)`; differs from `str` only on strings (quoted). -/
def pyReprV : PyVal → String
  | .str s => "\x27" ++ s ++ "\x27"
  | .none => "None"
  | .int n => toString n
  | .float lit => lit
  | .bool b => if b then "True" else "False"
  | .dict es => "\x7b" ++ pyReprEntries es ++ "\x7d"
  | .list xs => "[" ++ pyReprVals xs ++ "]"
  | .tuple xs => "(" ++ pyReprVals xs ++ ")"
  | .objDict _ r => r
  | .objDictNotCallable r => r
  | .objDictRaises _ r => r
  | .objAttrs _ r => r
  | .other r => r

/-- Comma-separated `repr` of dict entries. -/
def pyReprEntries : Entries → String
  | .nil => ""
  | .cons k v .nil => "\x27" ++ k ++ "\x27: " ++ pyReprV v
  | .cons k v rest => "\x27" ++ k ++ "\x27: " ++ pyReprV v ++ ", " ++ pyReprEntries rest

/-- Comma-separated `repr` of list elements. -/
def pyReprVals : Vals → String
  | .nil => ""
  | .cons v .nil => pyReprV v
  | .cons v rest => pyReprV v ++ ", " ++ pyReprVals rest

end

/-- Python truthiness `bool(v)`.  An opaque float literal is falsy exactly
when it is the literal `0.0` (no claim depends on float truthiness); plain
objects are truthy, as Python's default. -/
def pyTruthy : PyVal → Bool
  | .none => false
  | .str s => s != ""
  | .int n => n != 0
  | .float lit => lit != "0.0"
  | .bool b => b
  | .dict es => !es.isEmptyE
  | .list .nil => false
  | .list (.cons _ _) => true
  | .tuple .nil => false
  | .tuple (.cons _ _) => true
  | .objDict _ _ => true
  | .objDictNotCallable _ => true
  | .objDictRaises _ _ => true
  | .objAttrs _ _ => true
  | .other _ => true

mutual

/-- `_serialize(obj)` — identical in all three source files (crewai observer
lines 377-391, callback lines 437-451, middleware lines 280-294).  Each rule
is the corresponding `isinstance`/`hasattr` branch, in source order; the
function carries no try/except, so a raising branch propagates (`.error`). -/
def serialize : PyVal → Except PyErr PyVal
  | .none => .ok .none
  | .str s => .ok (.str s)
  | .int n => .ok (.int n)
  | .float lit => .ok (.float lit)
  | .bool b => .ok (.bool b)
  | .dict es => (serializeEntries es).map .dict
  | .list xs => (serializeVals xs).map .list
  | .tuple xs => (serializeVals xs).map .list
  | .objDict e _ => serialize e
  | .objDictNotCallable _ => .error "TypeError: object attribute dict is not callable"
  | .objDictRaises m _ => .error m
  | .objAttrs es _ => (serializeEntries es).map .dict
  | .other r => .ok (.str r)

/-- The dict comprehension `{k: self._serialize(v) for k, v in obj.items()}`:
keys untouched, values serialized; an exception in any value propagates. -/
def serializeEntries : Entries → Except PyErr Entries
  | .nil => .ok .nil
  | .cons k v rest => do
    let v2 ← serialize v
    let rest2 ← serializeEntries rest
    .ok (.cons k v2 rest2)

/-- The list comprehension `[self._serialize(v) for v in obj]`. -/
def serializeVals : Vals → Except PyErr Vals
  | .nil => .ok .nil
  | .cons v rest => do
    let v2 ← serialize v
    let rest2 ← serializeVals rest
    .ok (.cons v2 rest2)

end

/-- `v[:n]` applied to a serializer result (the `[:2000]` at crewai observer
line 323): strings and lists slice, every other serializer output raises
`TypeError` (ints, floats, bools and `None` are not subscriptable, dicts are
not sliceable). -/
def pySlice (v : PyVal) (n : Nat) : Except PyErr PyVal :=
  match v with
  | .str s => .ok (.str (s.take n))
  | .list xs => .ok (.list (Vals.take n xs))
  | .tuple xs => .ok (.tuple (Vals.take n xs))
  | _ => .error "TypeError: object is not subscriptable"

/-! ### The remote store and the HTTP transport

The remote decision store is external; it is modelled as an oracle
`net : Nat → Resp` assigning a response to the n-th POST the client issues.
`World` is the observable effect state of one client instance: how many
POSTs were issued, their bodies in order, and the string
`datetime.utcnow().isoformat()` yields during the call. -/

/-- One HTTP POST body issued by a client, as the remote store sees it. -/
inductive Request where
  /-- `POST /v1/decisions` with the given JSON payload dict. -/
  | create (payload : Entries) : Request
  /-- `POST /v1/decisions/{decision_id}/transition` with payload
  `{"status": status}` plus `"result": result` when attached. -/
  | transitionReq (decision_id : String) (status : String)
      (result : Option Entries) : Request

/-- The remote store's behaviour on one POST. -/
inductive Resp where
  /-- 2xx, body parses as JSON, `body.get("id")` yields `idOpt`
  (`Option.none` when the body has no `id`). -/
  | ok (idOpt : Option String) : Resp
  /-- 2xx but `response.json()` raises. -/
  | badJson : Resp
  /-- non-2xx: `raise_for_status()` raises `HTTPStatusError`. -/
  | httpErr (code : Nat) : Resp
  /-- transport failure: `client.post` itself raises. -/
  | netErr (msg : String) : Resp

/-- Observable state of one client instance's transport. -/
structure World where
  /-- Number of POSTs issued so far (indexes into the oracle). -/
  counter : Nat
  /-- All issued request bodies, oldest first. -/
  trace : List Request
  /-- What `datetime.utcnow().isoformat()` returns during this call. -/
  now : String

/-- Issue one POST: record the request, advance the counter, read the
oracle's response for it. -/
def sendPost (net : Nat → Resp) (w : World) (req : Request) : World × Resp :=
  ({ w with counter := w.counter + 1, trace := w.trace ++ [req] }, net w.counter)

/-- Truthiness of `decision_id : Optional[str]`, as tested by every
`if decision_id:` / `if self.auto_approve and decision_id:` guard:
present and non-empty. -/
def idTruthy : Option String → Bool
  | some s => s != ""
  | Option.none => false

/-- Truthiness of `result : Optional[Dict]`, as tested by `if result:`:
present and non-empty. -/
def dictOptTruthy : Option Entries → Bool
  | some es => !es.isEmptyE
  | Option.none => false

/-! ### Python dict operations for the active-decision tables

`self._active_decisions` / `self._run_decisions` are `Dict[str, str]`.
They are modelled as association lists; the operations below update or
remove every binding of the key, which on the unique-key lists Python
produces is exactly `d[k] = v` / `d.pop(k, None)`. -/

/-- Dict lookup `d.get(k)` (first binding; Python keys are unique). -/
def dlookup : List (String × String) → String → Option String
  | [], _ => Option.none
  | p :: rest, k => if p.1 = k then some p.2 else dlookup rest k

/-- `k in d`. -/
def dhasKey : List (String × String) → String → Bool
  | [], _ => false
  | p :: rest, k => p.1 = k || dhasKey rest k

/-- Replace every binding of `k` by `v` in place. -/
def dsetAll : List (String × String) → String → String → List (String × String)
  | [], _, _ => []
  | p :: rest, k, v => (if p.1 = k then (k, v) else p) :: dsetAll rest k v

/-- Dict assignment `d[k] = v`: overwrite in place when present, else append. -/
def dput (d : List (String × String)) (k v : String) : List (String × String) :=
  if dhasKey d k then dsetAll d k v else d ++ [(k, v)]

/-- Remove every binding of `k`. -/
def dremove : List (String × String) → String → List (String × String)
  | [], _ => []
  | p :: rest, k => if p.1 = k then dremove rest k else p :: dremove rest k

/-- Destructive take `d.pop(k, None)`: the held value (or `none`) together
with the dict with the key removed. -/
def dpop (d : List (String × String)) (k : String) :
    Option String × List (String × String) :=
  (dlookup d k, dremove d k)

/-! ### CrewAI observer (`src/crewai/contextgraph_observer.py`)

Constructor-time configuration that the claims touch.  The API key, base
URL and HTTP client are abstracted into the `net` oracle; the construction
of the instance (which validates the key and crew id) is not claimed
about. -/

/-- Configuration of one `ContextGraphObserver` instance. -/
structure CrewObserver where
  crew_id : String
  auto_approve : Bool
  log_tool_calls : Bool
  log_agent_thoughts : Bool
  /-- `self.metadata`, merged into every logged context. -/
  metadata : Entries

/-- The fields of a CrewAI task the observer reads.  `pyid` is `str(id(task))`
(the correlation key); the `getattr(_, _, default)` reads are `Option`-valued
fields, absent attribute mapped to `none`. -/
structure PyTask where
  pyid : String
  description : Option String
  expected_output : Option String

/-- The fields of a CrewAI agent the observer reads. -/
structure PyAgent where
  role : Option String
  goal : Option String

/-- Mutable hook state of one observer instance: the active decision table. -/
structure CrewState where
  active_decisions : List (String × String)

namespace Crew

/-- `_transition_decision` (observer lines 153-168).  Builds
`{"status": status}` plus `"result"` when truthy, POSTs it; every failure
(`netErr`, `httpErr`) is caught by the enclosing `except` and only logged,
so the call returns the world with the request recorded whatever the
response. -/
def transition_decision (net : Nat → Resp) (w : World) (decision_id : String)
    (status : String) (result : Option Entries) : World :=
  let payloadResult := if dictOptTruthy result then result else Option.none
  (sendPost net w (.transitionReq decision_id status payloadResult)).1

/-- The `try:` body of `_log_decision` (observer lines 121-147): build the
payload, POST it, `raise_for_status`, parse the body, extract the id,
auto-approve when configured.  `.error (e, w)` is an exception `e` raised
with the transport state already at `w`. -/
def log_decision_attempt (o : CrewObserver) (net : Nat → Resp) (w : World)
    (decision_type action : String) (context : Entries)
    (reference_id : Option String) :
    Except (PyErr × World) (World × Option String) :=
  let ctx := ((Entries.nil.insertAll context).insertAll o.metadata
      |>.insertE "timestamp" (.str w.now)).insertE "source" (.str "crewai")
  let ctx := match reference_id with
    | some rid => if rid != "" then ctx.insertE "reference_id" (.str rid) else ctx
    | Option.none => ctx
  let payload : Entries :=
    .cons "agent_id" (.str o.crew_id) (.cons "type" (.str decision_type)
      (.cons "action" (.str action) (.cons "status" (.str "proposed")
        (.cons "context" (.dict ctx) .nil))))
  let (w1, resp) := sendPost net w (.create payload)
  match resp with
  | .netErr m => .error (m, w1)
  | .httpErr code => .error ("HTTPStatusError " ++ toString code, w1)
  | .badJson => .error ("JSONDecodeError", w1)
  | .ok idOpt =>
    match idOpt with
    | some did =>
      if o.auto_approve && did != "" then
        .ok (transition_decision net w1 did "approved" Option.none, some did)
      else
        .ok (w1, some did)
    | Option.none => .ok (w1, Option.none)

/-- `_log_decision` (observer lines 113-151): the `try:` body with the
`except Exception` handler that logs and returns `None`. -/
def log_decision (o : CrewObserver) (net : Nat → Resp) (w : World)
    (decision_type action : String) (context : Entries)
    (reference_id : Option String) : World × Option String :=
  match log_decision_attempt o net w decision_type action context reference_id with
  | .ok r => r
  | .error (_, w1) => (w1, Option.none)

/-- `on_task_start` (observer lines 225-243). -/
def on_task_start (o : CrewObserver) (net : Nat → Resp) (st : CrewState)
    (w : World) (task : PyTask) (agent : PyAgent) : CrewState × World :=
  let task_id := task.pyid
  let agent_name := agent.role.getD "unknown_agent"
  let ctx : Entries :=
    .cons "task_description" (.str ((task.description.getD "").take 500))
      (.cons "expected_output" (.str ((task.expected_output.getD "").take 500))
        (.cons "agent_name" (.str agent_name)
          (.cons "agent_goal"
            (match agent.goal with | some g => .str g | Option.none => .none)
            .nil)))
  let (w1, idOpt) := log_decision o net w "task_execution" "execute_task" ctx (some task_id)
  if idTruthy idOpt then
    ({ active_decisions := dput st.active_decisions task_id (idOpt.getD "") }, w1)
  else
    (st, w1)

/-- `on_task_end` (observer lines 245-257): destructive
`self._active_decisions.pop(task_id, None)`, then a terminal transition
only when the popped id is truthy. -/
def on_task_end (_o : CrewObserver) (net : Nat → Resp) (st : CrewState)
    (w : World) (task : PyTask) (output : PyVal) : CrewState × World :=
  let task_id := task.pyid
  let (idOpt, active1) := dpop st.active_decisions task_id
  let st1 : CrewState := { active_decisions := active1 }
  if idTruthy idOpt then
    let res : Entries :=
      .cons "output"
        (if pyTruthy output then .str ((pyStr output).take 5000) else .none) .nil
    (st1, transition_decision net w (idOpt.getD "") "executed" (some res))
  else
    (st1, w)

/-- `on_task_error` (observer lines 259-269).  `error` is `str(error)`. -/
def on_task_error (_o : CrewObserver) (net : Nat → Resp) (st : CrewState)
    (w : World) (task : PyTask) (error : String) : CrewState × World :=
  let task_id := task.pyid
  let (idOpt, active1) := dpop st.active_decisions task_id
  let st1 : CrewState := { active_decisions := active1 }
  if idTruthy idOpt then
    let res : Entries := .cons "error" (.str error) .nil
    (st1, transition_decision net w (idOpt.getD "") "failed" (some res))
  else
    (st1, w)

/-- `on_tool_use` (observer lines 307-329).  The serializer calls and the
`[:2000]` slice happen while building the `context` argument, i.e. outside
any `try`: their exceptions propagate to the host (`.error`). -/
def on_tool_use (o : CrewObserver) (net : Nat → Resp) (w : World)
    (agent : PyAgent) (tool_name : String) (tool_input tool_output : PyVal) :
    Except PyErr World := do
  if !o.log_tool_calls then
    return w
  let agent_name := agent.role.getD "unknown_agent"
  let ti ← serialize tool_input
  let tOut ← serialize tool_output
  let tOutSliced ← pySlice tOut 2000
  let ctx : Entries :=
    .cons "agent_name" (.str agent_name) (.cons "tool_name" (.str tool_name)
      (.cons "tool_input" ti (.cons "tool_output" tOutSliced .nil)))
  let (w1, idOpt) := log_decision o net w "tool_usage" tool_name ctx Option.none
  if idTruthy idOpt then
    return transition_decision net w1 (idOpt.getD "") "executed" Option.none
  return w1

end Crew

/-! ### LangChain callback handler (`src/langchain/contextgraph_callback.py`) -/

/-- Configuration of one `ContextGraphCallback` instance. -/
structure LCHandler where
  agent_id : String
  auto_approve : Bool
  log_llm_calls : Bool
  log_chain_calls : Bool
  /-- `self.metadata`, merged into every logged context. -/
  metadata : Entries

/-- Mutable hook state of one handler: `self._run_decisions`, keyed by
`str(run_id)`. -/
structure LCState where
  run_decisions : List (String × String)

namespace LC

/-- `_transition_decision` (callback lines 147-161); identical behaviour to
the crewai observer's. -/
def transition_decision (net : Nat → Resp) (w : World) (decision_id : String)
    (status : String) (result : Option Entries) : World :=
  let payloadResult := if dictOptTruthy result then result else Option.none
  (sendPost net w (.transitionReq decision_id status payloadResult)).1

/-- The `try:` body of `_log_decision` (callback lines 115-141): like the
crewai observer's, with source tag `"langchain"` and the correlation key
recorded under `"run_id"`. -/
def log_decision_attempt (h : LCHandler) (net : Nat → Resp) (w : World)
    (decision_type action : String) (context : Entries)
    (run_id : Option String) :
    Except (PyErr × World) (World × Option String) :=
  let ctx := ((Entries.nil.insertAll context).insertAll h.metadata
      |>.insertE "timestamp" (.str w.now)).insertE "source" (.str "langchain")
  let ctx := match run_id with
    | some rid => if rid != "" then ctx.insertE "run_id" (.str rid) else ctx
    | Option.none => ctx
  let payload : Entries :=
    .cons "agent_id" (.str h.agent_id) (.cons "type" (.str decision_type)
      (.cons "action" (.str action) (.cons "status" (.str "proposed")
        (.cons "context" (.dict ctx) .nil))))
  let (w1, resp) := sendPost net w (.create payload)
  match resp with
  | .netErr m => .error (m, w1)
  | .httpErr code => .error ("HTTPStatusError " ++ toString code, w1)
  | .badJson => .error ("JSONDecodeError", w1)
  | .ok idOpt =>
    match idOpt with
    | some did =>
      if h.auto_approve && did != "" then
        .ok (transition_decision net w1 did "approved" Option.none, some did)
      else
        .ok (w1, some did)
    | Option.none => .ok (w1, Option.none)

/-- `_log_decision` (callback lines 107-145). -/
def log_decision (h : LCHandler) (net : Nat → Resp) (w : World)
    (decision_type action : String) (context : Entries)
    (run_id : Option String) : World × Option String :=
  match log_decision_attempt h net w decision_type action context run_id with
  | .ok r => r
  | .error (_, w1) => (w1, Option.none)

/-- `on_tool_start` (callback lines 211-240).  `serializedName` is
`serialized.get("name")`; `tags` and `metadataParam` are the host-supplied
values placed verbatim in the context; `inputs` passes through `_serialize`
while building the context argument (outside any `try`), so a serializer
exception propagates to the host. -/
def on_tool_start (h : LCHandler) (net : Nat → Resp) (st : LCState) (w : World)
    (serializedName : Option String) (input_str : String) (run_id : String)
    (tags metadataParam : PyVal) (inputs : PyVal) :
    Except PyErr (LCState × World) := do
  let tool_name := serializedName.getD "unknown_tool"
  let si ← serialize inputs
  let ctx : Entries :=
    .cons "tool" (.str tool_name) (.cons "input" (.str input_str)
      (.cons "inputs" si (.cons "tags" tags
        (.cons "metadata" metadataParam .nil))))
  let (w1, idOpt) := log_decision h net w "tool_execution" tool_name ctx (some run_id)
  if idTruthy idOpt then
    return ({ run_decisions := dput st.run_decisions run_id (idOpt.getD "") }, w1)
  return (st, w1)

/-- `on_tool_end` (callback lines 242-258): destructive
`self._run_decisions.pop(str(run_id), None)`, then a terminal `"executed"`
transition only when the popped id is truthy.  `output` is typed `str`. -/
def on_tool_end (net : Nat → Resp) (st : LCState) (w : World)
    (run_id : String) (output : String) : LCState × World :=
  let (idOpt, rd1) := dpop st.run_decisions run_id
  let st1 : LCState := { run_decisions := rd1 }
  if idTruthy idOpt then
    let res : Entries := .cons "output" (.str output) .nil
    (st1, transition_decision net w (idOpt.getD "") "executed" (some res))
  else
    (st1, w)

/-- `on_tool_error` (callback lines 260-276).  `error` is `str(error)`. -/
def on_tool_error (net : Nat → Resp) (st : LCState) (w : World)
    (run_id : String) (error : String) : LCState × World :=
  let (idOpt, rd1) := dpop st.run_decisions run_id
  let st1 : LCState := { run_decisions := rd1 }
  if idTruthy idOpt then
    let res : Entries := .cons "error" (.str error) .nil
    (st1, transition_decision net w (idOpt.getD "") "failed" (some res))
  else
    (st1, w)

end LC

/-! ### LangChain v1 middleware client (`src/langchain/contextgraph_middleware.py`) -/

/-- Configuration of one `ContextGraphClient` instance. -/
structure MWClient where
  agent_id : String
  auto_approve : Bool
  /-- `self.metadata`, merged into every logged context. -/
  metadata : Entries

namespace MW

/-- `ContextGraphClient.transition_decision` (middleware lines 97-112). -/
def transition_decision (net : Nat → Resp) (w : World) (decision_id : String)
    (status : String) (result : Option Entries) : World :=
  let payloadResult := if dictOptTruthy result then result else Option.none
  (sendPost net w (.transitionReq decision_id status payloadResult)).1

/-- The `try:` body of `ContextGraphClient.log_decision` (middleware lines
68-91): no correlation-key argument, source tag `"langchain-v1"`. -/
def log_decision_attempt (c : MWClient) (net : Nat → Resp) (w : World)
    (decision_type action : String) (context : Entries) :
    Except (PyErr × World) (World × Option String) :=
  let ctx := ((Entries.nil.insertAll context).insertAll c.metadata
      |>.insertE "timestamp" (.str w.now)).insertE "source" (.str "langchain-v1")
  let payload : Entries :=
    .cons "agent_id" (.str c.agent_id) (.cons "type" (.str decision_type)
      (.cons "action" (.str action) (.cons "status" (.str "proposed")
        (.cons "context" (.dict ctx) .nil))))
  let (w1, resp) := sendPost net w (.create payload)
  match resp with
  | .netErr m => .error (m, w1)
  | .httpErr code => .error ("HTTPStatusError " ++ toString code, w1)
  | .badJson => .error ("JSONDecodeError", w1)
  | .ok idOpt =>
    match idOpt with
    | some did =>
      if c.auto_approve && did != "" then
        .ok (transition_decision net w1 did "approved" Option.none, some did)
      else
        .ok (w1, some did)
    | Option.none => .ok (w1, Option.none)

/-- `ContextGraphClient.log_decision` (middleware lines 61-95). -/
def log_decision (c : MWClient) (net : Nat → Resp) (w : World)
    (decision_type action : String) (context : Entries) : World × Option String :=
  match log_decision_attempt c net w decision_type action context with
  | .ok r => r
  | .error (_, w1) => (w1, Option.none)

end MW

/-! ### Object graphs with reference cycles

The inductive `PyVal` cannot represent a self-referential `__dict__`, so the
serializer's behaviour on cyclic attribute-bag graphs is modelled on an
explicit heap: objects are numbered, `g oid` is the attribute bag
(`__dict__`) of object `oid`, and a `GVal.ref` is a reference to an object.
`serializeG` is the same recursion as `_serialize` restricted to the
primitive and attribute-bag rules the claim is about, run with an explicit
budget of nested rule applications; Python's unguarded recursion
corresponds to the limit over all budgets (a `RecursionError` is the case
where no finite budget completes). -/

/-- A heap value: a primitive or a reference to a numbered object. -/
inductive GVal where
  | str (s : String) : GVal
  | int (n : Int) : GVal
  | ref (oid : Nat) : GVal

mutual

/-- `_serialize` on the heap model, with `fuel` bounding the number of
nested rule applications.  `none` means the budget was exhausted before the
recursion completed. -/
def serializeG (g : Nat → List (String × GVal)) : Nat → GVal → Option PyVal
  | 0, _ => Option.none
  | _ + 1, .str s => some (.str s)
  | _ + 1, .int n => some (.int n)
  | fuel + 1, .ref oid => (serializeGEntries g fuel (g oid)).map PyVal.dict

/-- The dict-comprehension rule of `_serialize` over an attribute bag on the
heap model. -/
def serializeGEntries (g : Nat → List (String × GVal)) :
    Nat → List (String × GVal) → Option Entries
  | 0, _ => Option.none
  | _ + 1, [] => some .nil
  | fuel + 1, (k, v) :: rest => do
    let v2 ← serializeG g fuel v
    let rest2 ← serializeGEntries g fuel rest
    some (.cons k v2 rest2)

end

/-- The heap of the spec's self-referential example: object `0`'s attribute
bag contains a reference back to object `0`. -/
def cycHeap : Nat → List (String × GVal) := fun _ => [("self", GVal.ref 0)]

/-- An acyclic one-object heap, for the positive side: object `0` holds one
integer attribute. -/
def acycHeap : Nat → List (String × GVal) := fun _ => [("x", GVal.int 7)]

/-! ### Helper lemmas on the dict models -/

/-- Induction over `Entries` along its own spine (the values are not
descended into), usable where the generic mutual recursor is not. -/
def Entries.spineInduction {motive : Entries → Prop} (d : Entries)
    (hnil : motive .nil)
    (hcons : ∀ k v rest, motive rest → motive (.cons k v rest)) : motive d :=
  match d with
  | .nil => hnil
  | .cons k v rest => hcons k v rest (Entries.spineInduction rest hnil hcons)

theorem Entries.lookupE_setAll_self (d : Entries) (k : String) (v : PyVal)
    (h : d.hasKey k = true) : (d.setAll k v).lookupE k = some v := by
  induction d using Entries.spineInduction with
  | hnil => simp [Entries.hasKey] at h
  | hcons k0 v0 rest ih =>
    simp only [Entries.hasKey, Bool.or_eq_true, decide_eq_true_eq] at h
    by_cases hk : k0 = k
    · simp [Entries.setAll, Entries.lookupE, hk]
    · have hr : rest.hasKey k = true := by
        rcases h with h | h
        · exact absurd h hk
        · exact h
      simp [Entries.setAll, Entries.lookupE, hk, ih hr]

theorem Entries.lookupE_setAll_ne (d : Entries) (k : String) (v : PyVal)
    (key : String) (h : key ≠ k) :
    (d.setAll k v).lookupE key = d.lookupE key := by
  induction d using Entries.spineInduction with
  | hnil => rfl
  | hcons k0 v0 rest ih =>
    by_cases hk0 : k0 = key
    · have hne : ¬ (k0 = k) := fun hh => h (hk0.symm.trans hh)
      simp [Entries.setAll, Entries.lookupE, hk0, hne, h]
    · simp [Entries.setAll, Entries.lookupE, hk0, ih]

theorem Entries.lookupE_append (a b : Entries) (key : String) :
    (a.append b).lookupE key =
      match a.lookupE key with
      | some v => some v
      | Option.none => b.lookupE key := by
  induction a using Entries.spineInduction with
  | hnil => simp [Entries.append, Entries.lookupE]
  | hcons k0 v0 rest ih =>
    by_cases hk : k0 = key
    · simp [Entries.append, Entries.lookupE, hk]
    · simp [Entries.append, Entries.lookupE, hk, ih]

theorem Entries.lookupE_none_of_hasKey_false (d : Entries) (k : String)
    (h : d.hasKey k = false) : d.lookupE k = Option.none := by
  induction d using Entries.spineInduction with
  | hnil => rfl
  | hcons k0 v0 rest ih =>
    simp only [Entries.hasKey, Bool.or_eq_false_iff, decide_eq_false_iff_not] at h
    simp [Entries.lookupE, h.1, ih h.2]

/-- Lookup after a Python dict assignment: the assigned key reads the new
value, every other key is untouched. -/
theorem Entries.lookupE_insertE (d : Entries) (k : String) (v : PyVal)
    (key : String) :
    (d.insertE k v).lookupE key =
      if key = k then some v else d.lookupE key := by
  unfold Entries.insertE
  by_cases hk : d.hasKey k
  · simp only [hk, if_true]
    by_cases hkey : key = k
    · subst hkey; simp [Entries.lookupE_setAll_self d key v hk]
    · simp [hkey, Entries.lookupE_setAll_ne d k v key hkey]
  · simp only [Bool.not_eq_true] at hk
    simp only [hk, Bool.false_eq_true, if_false]
    rw [Entries.lookupE_append]
    by_cases hkey : key = k
    · subst hkey
      simp [Entries.lookupE_none_of_hasKey_false d key hk, Entries.lookupE]
    · cases hlk : d.lookupE key with
      | none =>
        have hne : ¬ (k = key) := fun hh => hkey hh.symm
        simp [Entries.lookupE, hkey, hne]
      | some v0 => simp [hkey]

/-- Lookup after splatting `es` into `d`: the last binding of the key in
`es` wins; keys not bound in `es` read from `d`. -/
theorem Entries.lookupE_insertAll (d : Entries) (es : Entries) (key : String) :
    (d.insertAll es).lookupE key =
      match es.lookupLast key with
      | some v => some v
      | Option.none => d.lookupE key := by
  induction es using Entries.spineInduction generalizing d with
  | hnil => simp [Entries.insertAll, Entries.lookupLast]
  | hcons k v rest ih =>
    simp only [Entries.insertAll]
    rw [ih]
    cases hr : rest.lookupLast key with
    | some v2 => simp [Entries.lookupLast, hr]
    | none =>
      rw [Entries.lookupE_insertE]
      by_cases hk : key = k
      · subst hk; simp [Entries.lookupLast, hr]
      · have hne : ¬ (k = key) := fun hh => hk hh.symm
        simp [Entries.lookupLast, hr, hne, hk]

theorem dhasKey_false_lookup (d : List (String × String)) (k : String)
    (h : dhasKey d k = false) : dlookup d k = Option.none := by
  induction d with
  | nil => rfl
  | cons p rest ih =>
    simp only [dhasKey, Bool.or_eq_false_iff, decide_eq_false_iff_not] at h
    simp [dlookup, h.1, ih h.2]

theorem dlookup_dsetAll_self (d : List (String × String)) (k v : String)
    (h : dhasKey d k = true) : dlookup (dsetAll d k v) k = some v := by
  induction d with
  | nil => simp [dhasKey] at h
  | cons p rest ih =>
    simp only [dhasKey, Bool.or_eq_true, decide_eq_true_eq] at h
    by_cases hp : p.1 = k
    · simp [dsetAll, dlookup, hp]
    · have hr : dhasKey rest k = true := by
        rcases h with h | h
        · exact absurd h hp
        · exact h
      simp [dsetAll, dlookup, hp, ih hr]

theorem dlookup_dsetAll_ne (d : List (String × String)) (k v key : String)
    (h : key ≠ k) : dlookup (dsetAll d k v) key = dlookup d key := by
  induction d with
  | nil => rfl
  | cons p rest ih =>
    by_cases hp : p.1 = key
    · have hne : ¬ (p.1 = k) := fun hh => h (hp.symm.trans hh)
      simp [dsetAll, dlookup, hne, hp, h]
    · by_cases hpk : p.1 = k
      · have hne2 : ¬ (k = key) := fun hh => h hh.symm
        simp [dsetAll, dlookup, hpk, hne2, hp, ih]
      · simp [dsetAll, dlookup, hpk, hp, ih]

theorem dlookup_append (a b : List (String × String)) (key : String) :
    dlookup (a ++ b) key =
      match dlookup a key with
      | some v => some v
      | Option.none => dlookup b key := by
  induction a with
  | nil => simp [dlookup]
  | cons p rest ih =>
    by_cases hp : p.1 = key
    · simp [dlookup, hp]
    · simp [dlookup, hp, ih]

theorem dlookup_dput_self (d : List (String × String)) (k v : String) :
    dlookup (dput d k v) k = some v := by
  unfold dput
  by_cases hk : dhasKey d k
  · simp [hk, dlookup_dsetAll_self d k v hk]
  · simp only [Bool.not_eq_true] at hk
    simp only [hk, Bool.false_eq_true, if_false]
    rw [dlookup_append]
    simp [dhasKey_false_lookup d k hk, dlookup]

theorem dlookup_dput_ne (d : List (String × String)) (k v key : String)
    (h : key ≠ k) : dlookup (dput d k v) key = dlookup d key := by
  unfold dput
  by_cases hk : dhasKey d k
  · simp [hk, dlookup_dsetAll_ne d k v key h]
  · simp only [Bool.not_eq_true] at hk
    simp only [hk, Bool.false_eq_true, if_false]
    rw [dlookup_append]
    cases hlk : dlookup d key with
    | none =>
      have hne : ¬ (k = key) := fun hh => h hh.symm
      simp [dlookup, hne]
    | some v0 => simp

/-- Take is destructive: after `pop(k)` the key reads absent. -/
theorem dlookup_dpop_self (d : List (String × String)) (k : String) :
    dlookup (dpop d k).2 k = Option.none := by
  show dlookup (dremove d k) k = Option.none
  induction d with
  | nil => rfl
  | cons p rest ih =>
    by_cases hp : p.1 = k
    · simpa [dremove, hp] using ih
    · simpa [dremove, dlookup, hp] using ih

theorem dlookup_dpop_ne (d : List (String × String)) (k key : String)
    (h : key ≠ k) : dlookup (dpop d k).2 key = dlookup d key := by
  show dlookup (dremove d k) key = dlookup d key
  induction d with
  | nil => rfl
  | cons p rest ih =>
    by_cases hp : p.1 = k
    · have hpkey : ¬ (p.1 = key) := fun hh => h (hh.symm.trans hp)
      simp only [dremove, hp, if_true]
      rw [ih]
      simp [dlookup, hpkey]
    · by_cases hpkey : p.1 = key
      · simp [dremove, hp, dlookup, hpkey, h]
      · simp only [dremove, hp, if_false]
        simp [dlookup, hpkey, ih]

theorem dsetAll_keys (d : List (String × String)) (k v : String) :
    (dsetAll d k v).map Prod.fst = d.map Prod.fst := by
  induction d with
  | nil => rfl
  | cons p rest ih =>
    by_cases hp : p.1 = k
    · simp [dsetAll, hp, ih]
    · simp [dsetAll, hp, ih]

theorem dhasKey_of_mem (d : List (String × String)) (x : String)
    (hx : x ∈ d.map Prod.fst) : dhasKey d x = true := by
  induction d with
  | nil => simp at hx
  | cons p rest ih =>
    simp only [List.map_cons, List.mem_cons] at hx
    rcases hx with hx | hx
    · simp [dhasKey, hx]
    · simp [dhasKey, ih hx]

/-- Key-uniqueness is preserved by dict assignment. -/
theorem dput_nodup (d : List (String × String)) (k v : String)
    (h : (d.map Prod.fst).Nodup) : ((dput d k v).map Prod.fst).Nodup := by
  by_cases hk : dhasKey d k
  · simp only [dput, hk, if_true, dsetAll_keys]
    exact h
  · simp only [Bool.not_eq_true] at hk
    simp only [dput, hk, Bool.false_eq_true, if_false, List.map_append,
      List.map_cons, List.map_nil]
    rw [List.nodup_append]
    refine ⟨h, List.nodup_singleton k, ?_⟩
    intro x hx hx1
    simp only [List.mem_singleton] at hx1
    subst hx1
    rw [dhasKey_of_mem d x hx] at hk
    simp at hk

theorem dremove_keys_subset (d : List (String × String)) (k x : String)
    (hx : x ∈ (dremove d k).map Prod.fst) : x ∈ d.map Prod.fst := by
  induction d with
  | nil => simp [dremove] at hx
  | cons p rest ih =>
    by_cases hp : p.1 = k
    · simp only [dremove, hp, if_true] at hx
      simp [List.mem_cons, ih hx]
    · simp only [dremove, hp, if_false, List.map_cons, List.mem_cons] at hx
      rcases hx with hx | hx
      · simp [hx]
      · simp [ih hx]

/-- Key-uniqueness is preserved by destructive take. -/
theorem dpop_nodup (d : List (String × String)) (k : String)
    (h : (d.map Prod.fst).Nodup) : (((dpop d k).2).map Prod.fst).Nodup := by
  show ((dremove d k).map Prod.fst).Nodup
  induction d with
  | nil => exact h
  | cons p rest ih =>
    simp only [List.map_cons, List.nodup_cons] at h
    by_cases hp : p.1 = k
    · simp only [dremove, hp, if_true]
      exact ih h.2
    · simp only [dremove, hp, if_false, List.map_cons, List.nodup_cons]
      exact ⟨fun hmem => h.1 (dremove_keys_subset rest k p.1 hmem), ih h.2⟩

/-! ### Characterizations of the lifecycle operations -/

/-- The requests a call issued: the suffix `w1.trace` adds to `w.trace`. -/
def issued (w w1 : World) : List Request :=
  w1.trace.drop w.trace.length

/-- Terminal transitions are the `executed`/`failed` state changes. -/
def Request.isTerminal : Request → Bool
  | .transitionReq _ s _ => s == "executed" || s == "failed"
  | _ => false

theorem issued_of_append (w : World) (w1 : World) (l : List Request)
    (h : w1.trace = w.trace ++ l) : issued w w1 = l := by
  unfold issued
  rw [h, List.drop_left]

theorem issued_refl (w : World) : issued w w = [] := by
  unfold issued
  simp

/-- The context dict `_log_decision` builds (observer lines 127-136):
`{**context, **self.metadata, "timestamp": ..., "source": "crewai"}`, then
`reference_id` written in place when truthy. -/
def Crew.ctxOf (o : CrewObserver) (w : World) (context : Entries)
    (reference_id : Option String) : Entries :=
  let ctx := ((Entries.nil.insertAll context).insertAll o.metadata
      |>.insertE "timestamp" (.str w.now)).insertE "source" (.str "crewai")
  match reference_id with
  | some rid => if rid != "" then ctx.insertE "reference_id" (.str rid) else ctx
  | Option.none => ctx

/-- The callback's context dict (callback lines 121-130), with source tag
`"langchain"` and the key `"run_id"`. -/
def LC.ctxOf (h : LCHandler) (w : World) (context : Entries)
    (run_id : Option String) : Entries :=
  let ctx := ((Entries.nil.insertAll context).insertAll h.metadata
      |>.insertE "timestamp" (.str w.now)).insertE "source" (.str "langchain")
  match run_id with
  | some rid => if rid != "" then ctx.insertE "run_id" (.str rid) else ctx
  | Option.none => ctx

/-- The middleware client's context dict (middleware lines 74-79). -/
def MW.ctxOf (c : MWClient) (w : World) (context : Entries) : Entries :=
  ((Entries.nil.insertAll context).insertAll c.metadata
      |>.insertE "timestamp" (.str w.now)).insertE "source" (.str "langchain-v1")

/-- The creation payload: exactly the five keys of the dict literal at
observer lines 122-133 / callback lines 116-127 / middleware lines 69-80. -/
def mkPayload (aid decision_type action : String) (ctx : Entries) : Entries :=
  .cons "agent_id" (.str aid) (.cons "type" (.str decision_type)
    (.cons "action" (.str action) (.cons "status" (.str "proposed")
      (.cons "context" (.dict ctx) .nil))))

/-- Normal form of `Crew.log_decision`: one `create` POST always, then —
only on a 2xx response carrying a truthy id with auto-approve on — one
`approved` transition; the returned id is the response id on success and
`None` on every failure. -/
theorem crew_log_decision_eq (o : CrewObserver) (net : Nat → Resp) (w : World)
    (decision_type action : String) (context : Entries)
    (reference_id : Option String) :
    Crew.log_decision o net w decision_type action context reference_id =
      (let payload := mkPayload o.crew_id decision_type action
        (Crew.ctxOf o w context reference_id)
      let w1 : World := ⟨w.counter + 1, w.trace ++ [Request.create payload], w.now⟩
      match net w.counter with
      | Resp.ok (some did) =>
        if o.auto_approve && did != "" then
          (⟨w1.counter + 1,
              w1.trace ++ [Request.transitionReq did "approved" Option.none],
              w1.now⟩,
            some did)
        else (w1, some did)
      | Resp.ok Option.none => (w1, Option.none)
      | Resp.badJson => (w1, Option.none)
      | Resp.httpErr _ => (w1, Option.none)
      | Resp.netErr _ => (w1, Option.none)) := by
  unfold Crew.log_decision Crew.log_decision_attempt Crew.ctxOf mkPayload
    sendPost Crew.transition_decision
  cases hn : net w.counter with
  | ok idOpt =>
    cases idOpt with
    | some did => by_cases hd : o.auto_approve && did != "" <;> simp [hn, hd, dictOptTruthy, sendPost]
    | none => simp [hn]
  | badJson => simp [hn]
  | httpErr code => simp [hn]
  | netErr msg => simp [hn]

/-- Normal form of `LC.log_decision`. -/
theorem lc_log_decision_eq (h : LCHandler) (net : Nat → Resp) (w : World)
    (decision_type action : String) (context : Entries)
    (run_id : Option String) :
    LC.log_decision h net w decision_type action context run_id =
      (let payload := mkPayload h.agent_id decision_type action
        (LC.ctxOf h w context run_id)
      let w1 : World := ⟨w.counter + 1, w.trace ++ [Request.create payload], w.now⟩
      match net w.counter with
      | Resp.ok (some did) =>
        if h.auto_approve && did != "" then
          (⟨w1.counter + 1,
              w1.trace ++ [Request.transitionReq did "approved" Option.none],
              w1.now⟩,
            some did)
        else (w1, some did)
      | Resp.ok Option.none => (w1, Option.none)
      | Resp.badJson => (w1, Option.none)
      | Resp.httpErr _ => (w1, Option.none)
      | Resp.netErr _ => (w1, Option.none)) := by
  unfold LC.log_decision LC.log_decision_attempt LC.ctxOf mkPayload
    sendPost LC.transition_decision
  cases hn : net w.counter with
  | ok idOpt =>
    cases idOpt with
    | some did => by_cases hd : h.auto_approve && did != "" <;> simp [hn, hd, dictOptTruthy, sendPost]
    | none => simp [hn]
  | badJson => simp [hn]
  | httpErr code => simp [hn]
  | netErr msg => simp [hn]

/-- Normal form of `MW.log_decision`. -/
theorem mw_log_decision_eq (c : MWClient) (net : Nat → Resp) (w : World)
    (decision_type action : String) (context : Entries) :
    MW.log_decision c net w decision_type action context =
      (let payload := mkPayload c.agent_id decision_type action
        (MW.ctxOf c w context)
      let w1 : World := ⟨w.counter + 1, w.trace ++ [Request.create payload], w.now⟩
      match net w.counter with
      | Resp.ok (some did) =>
        if c.auto_approve && did != "" then
          (⟨w1.counter + 1,
              w1.trace ++ [Request.transitionReq did "approved" Option.none],
              w1.now⟩,
            some did)
        else (w1, some did)
      | Resp.ok Option.none => (w1, Option.none)
      | Resp.badJson => (w1, Option.none)
      | Resp.httpErr _ => (w1, Option.none)
      | Resp.netErr _ => (w1, Option.none)) := by
  unfold MW.log_decision MW.log_decision_attempt MW.ctxOf mkPayload
    sendPost MW.transition_decision
  cases hn : net w.counter with
  | ok idOpt =>
    cases idOpt with
    | some did => by_cases hd : c.auto_approve && did != "" <;> simp [hn, hd, dictOptTruthy, sendPost]
    | none => simp [hn]
  | badJson => simp [hn]
  | httpErr code => simp [hn]
  | netErr msg => simp [hn]

/-! ### Hook-level lemmas -/

theorem Crew.on_task_end_absent (o : CrewObserver) (net : Nat → Resp)
    (st : CrewState) (w : World) (task : PyTask) (output : PyVal)
    (h : dlookup st.active_decisions task.pyid = Option.none) :
    Crew.on_task_end o net st w task output =
      ({ active_decisions := dremove st.active_decisions task.pyid }, w) := by
  unfold Crew.on_task_end dpop
  simp [h, idTruthy]

theorem Crew.on_task_end_present (o : CrewObserver) (net : Nat → Resp)
    (st : CrewState) (w : World) (task : PyTask) (output : PyVal) (did : String)
    (h : dlookup st.active_decisions task.pyid = some did) (hne : did ≠ "") :
    Crew.on_task_end o net st w task output =
      ({ active_decisions := dremove st.active_decisions task.pyid },
        ⟨w.counter + 1,
          w.trace ++ [Request.transitionReq did "executed"
            (some (Entries.cons "output"
              (if pyTruthy output then PyVal.str ((pyStr output).take 5000)
               else PyVal.none) Entries.nil))],
          w.now⟩) := by
  unfold Crew.on_task_end dpop Crew.transition_decision sendPost
  simp [h, idTruthy, bne_iff_ne, hne, dictOptTruthy, Entries.isEmptyE]

theorem Crew.on_task_error_absent (o : CrewObserver) (net : Nat → Resp)
    (st : CrewState) (w : World) (task : PyTask) (errmsg : String)
    (h : dlookup st.active_decisions task.pyid = Option.none) :
    Crew.on_task_error o net st w task errmsg =
      ({ active_decisions := dremove st.active_decisions task.pyid }, w) := by
  unfold Crew.on_task_error dpop
  simp [h, idTruthy]

theorem Crew.on_task_error_present (o : CrewObserver) (net : Nat → Resp)
    (st : CrewState) (w : World) (task : PyTask) (errmsg : String) (did : String)
    (h : dlookup st.active_decisions task.pyid = some did) (hne : did ≠ "") :
    Crew.on_task_error o net st w task errmsg =
      ({ active_decisions := dremove st.active_decisions task.pyid },
        ⟨w.counter + 1,
          w.trace ++ [Request.transitionReq did "failed"
            (some (Entries.cons "error" (PyVal.str errmsg) Entries.nil))],
          w.now⟩) := by
  unfold Crew.on_task_error dpop Crew.transition_decision sendPost
  simp [h, idTruthy, bne_iff_ne, hne, dictOptTruthy, Entries.isEmptyE]

theorem LC.on_tool_end_absent (net : Nat → Resp) (st : LCState) (w : World)
    (run_id output : String)
    (h : dlookup st.run_decisions run_id = Option.none) :
    LC.on_tool_end net st w run_id output =
      ({ run_decisions := dremove st.run_decisions run_id }, w) := by
  unfold LC.on_tool_end dpop
  simp [h, idTruthy]

theorem LC.on_tool_end_present (net : Nat → Resp) (st : LCState) (w : World)
    (run_id output : String) (did : String)
    (h : dlookup st.run_decisions run_id = some did) (hne : did ≠ "") :
    LC.on_tool_end net st w run_id output =
      ({ run_decisions := dremove st.run_decisions run_id },
        ⟨w.counter + 1,
          w.trace ++ [Request.transitionReq did "executed"
            (some (Entries.cons "output" (PyVal.str output) Entries.nil))],
          w.now⟩) := by
  unfold LC.on_tool_end dpop LC.transition_decision sendPost
  simp [h, idTruthy, bne_iff_ne, hne, dictOptTruthy, Entries.isEmptyE]

theorem LC.on_tool_error_absent (net : Nat → Resp) (st : LCState) (w : World)
    (run_id errmsg : String)
    (h : dlookup st.run_decisions run_id = Option.none) :
    LC.on_tool_error net st w run_id errmsg =
      ({ run_decisions := dremove st.run_decisions run_id }, w) := by
  unfold LC.on_tool_error dpop
  simp [h, idTruthy]

theorem LC.on_tool_error_present (net : Nat → Resp) (st : LCState) (w : World)
    (run_id errmsg : String) (did : String)
    (h : dlookup st.run_decisions run_id = some did) (hne : did ≠ "") :
    LC.on_tool_error net st w run_id errmsg =
      ({ run_decisions := dremove st.run_decisions run_id },
        ⟨w.counter + 1,
          w.trace ++ [Request.transitionReq did "failed"
            (some (Entries.cons "error" (PyVal.str errmsg) Entries.nil))],
          w.now⟩) := by
  unfold LC.on_tool_error dpop LC.transition_decision sendPost
  simp [h, idTruthy, bne_iff_ne, hne, dictOptTruthy, Entries.isEmptyE]

theorem Crew.on_task_start_success (o : CrewObserver) (net : Nat → Resp)
    (st : CrewState) (w : World) (task : PyTask) (agent : PyAgent) (did : String)
    (hn : net w.counter = Resp.ok (some did)) (hne : did ≠ "") :
    (Crew.on_task_start o net st w task agent).1.active_decisions
        = dput st.active_decisions task.pyid did ∧
    (issued w (Crew.on_task_start o net st w task agent).2).filter
        Request.isTerminal = [] := by
  simp only [Crew.on_task_start]
  rw [crew_log_decision_eq]
  by_cases ha : o.auto_approve
  · simp only [hn, ha, Bool.true_and, bne_iff_ne, ne_eq, hne, not_false_eq_true,
      if_true, idTruthy]
    constructor
    · simp [bne_iff_ne, hne]
    · simp [issued, List.append_assoc, List.drop_left, Request.isTerminal,
        bne_iff_ne, hne]
  · simp only [Bool.not_eq_true] at ha
    simp only [hn, ha, Bool.false_and, if_false, idTruthy]
    constructor
    · simp [bne_iff_ne, hne]
    · simp [issued, List.append_assoc, List.drop_left, Request.isTerminal,
        bne_iff_ne, hne]

theorem Crew.on_task_start_nostore (o : CrewObserver) (net : Nat → Resp)
    (st : CrewState) (w : World) (task : PyTask) (agent : PyAgent)
    (hfail : ∀ did, net w.counter = Resp.ok (some did) → did = "") :
    (Crew.on_task_start o net st w task agent).1 = st ∧
    (issued w (Crew.on_task_start o net st w task agent).2).filter
        Request.isTerminal = [] := by
  simp only [Crew.on_task_start]
  rw [crew_log_decision_eq]
  cases hn : net w.counter with
  | ok idOpt =>
    cases idOpt with
    | some did =>
      have hd := hfail did hn
      subst hd
      simp only [bne_self_eq_false, Bool.and_false, if_false, idTruthy]
      constructor
      · rfl
      · simp [issued, List.append_assoc, List.drop_left, Request.isTerminal]
    | none =>
      simp only [idTruthy]
      constructor
      · rfl
      · simp [issued, List.append_assoc, List.drop_left, Request.isTerminal]
  | badJson =>
    simp only [idTruthy]
    exact ⟨rfl, by simp [issued, List.append_assoc, List.drop_left, Request.isTerminal]⟩
  | httpErr code =>
    simp only [idTruthy]
    exact ⟨rfl, by simp [issued, List.append_assoc, List.drop_left, Request.isTerminal]⟩
  | netErr msg =>
    simp only [idTruthy]
    exact ⟨rfl, by simp [issued, List.append_assoc, List.drop_left, Request.isTerminal]⟩

theorem dlookup_dremove_self (d : List (String × String)) (k : String) :
    dlookup (dremove d k) k = Option.none :=
  dlookup_dpop_self d k

/-- Whatever the popped id, `on_tool_end` leaves the table with the key
removed. -/
theorem LC.on_tool_end_removes (net : Nat → Resp) (st : LCState) (w : World)
    (run_id output : String) :
    (LC.on_tool_end net st w run_id output).1.run_decisions
      = dremove st.run_decisions run_id := by
  simp only [LC.on_tool_end, dpop]
  split <;> rfl

/-! ### Concrete fixtures used by the witnesses -/

/-- A remote store that always answers 2xx with id `"d1"`. -/
def net0 : Nat → Resp := fun _ => Resp.ok (some "d1")

/-- A remote store that is unreachable. -/
def netFail : Nat → Resp := fun _ => Resp.netErr "connection refused"

/-- A fresh transport state. -/
def w0 : World := ⟨0, [], "2026-02-03T04:05:06"⟩

/-- A crewai observer fixture, auto-approve off. -/
def o0 : CrewObserver := ⟨"crew-1", false, true, true, Entries.nil⟩

/-- A crewai observer fixture, auto-approve on. -/
def o1 : CrewObserver := ⟨"crew-1", true, true, true, Entries.nil⟩

/-- A langchain callback fixture. -/
def lc0 : LCHandler := ⟨"agent-1", false, false, true, Entries.nil⟩

/-- A middleware client fixture, auto-approve on. -/
def mw1 : MWClient := ⟨"agent-1", true, Entries.nil⟩

/-- A task fixture (`str(id(task))` is `"140230"`). -/
def task0 : PyTask := ⟨"140230", some "write a report", some "a report"⟩

/-- An agent fixture. -/
def agent0 : PyAgent := ⟨some "researcher", some "find facts"⟩

/-! ### The claims -/

/-- **C1**: For every unit of work, at most one terminal transition
(`executed` or `failed`) is issued: the start hook stores the proposed
decision id in the active table under the correlation key, the end/error
hook removes it with a destructive take (`dict.pop`), so a second end/error
call for the same key observes absent and issues no transition; and when
propose failed (returned `None`), no entry was stored and the end/error
hooks likewise issue no transition.  Stated for the crewai task hooks
(`on_task_start`/`on_task_end`/`on_task_error`) and for the LangChain
callback tool hooks (`on_tool_end`/`on_tool_error`), the code the claim
cites. -/
theorem C1_at_most_one_terminal_transition
    (o : CrewObserver) (net : Nat → Resp) (st : CrewState) (w : World)
    (task : PyTask) (agent : PyAgent) (output : PyVal) (errmsg : String)
    (lcst : LCState) (lw : World) (run_id outStr errStr : String)
    (hfree : dlookup st.active_decisions task.pyid = Option.none) :
    (∀ did s1 s2, net w.counter = Resp.ok (some did) → did ≠ "" →
      s1 = Crew.on_task_start o net st w task agent →
      s2 = Crew.on_task_end o net s1.1 s1.2 task output →
      (issued w s1.2).filter Request.isTerminal = []
      ∧ (∃ res, issued s1.2 s2.2 = [Request.transitionReq did "executed" res])
      ∧ dlookup s2.1.active_decisions task.pyid = Option.none
      ∧ issued s2.2 (Crew.on_task_end o net s2.1 s2.2 task output).2 = []
      ∧ issued s2.2 (Crew.on_task_error o net s2.1 s2.2 task errmsg).2 = [])
    ∧ (∀ s1, (∀ did, net w.counter = Resp.ok (some did) → did = "") →
      s1 = Crew.on_task_start o net st w task agent →
      s1.1 = st
      ∧ (issued w s1.2).filter Request.isTerminal = []
      ∧ issued s1.2 (Crew.on_task_end o net s1.1 s1.2 task output).2 = []
      ∧ issued s1.2 (Crew.on_task_error o net s1.1 s1.2 task errmsg).2 = [])
    ∧ (∀ t1, t1 = LC.on_tool_end net lcst lw run_id outStr →
      dlookup t1.1.run_decisions run_id = Option.none
      ∧ issued t1.2 (LC.on_tool_end net t1.1 t1.2 run_id outStr).2 = []
      ∧ issued t1.2 (LC.on_tool_error net t1.1 t1.2 run_id errStr).2 = []) := by
  refine ⟨?_, ?_, ?_⟩
  · intro did s1 s2 hn hne hs1 hs2
    obtain ⟨hact, hflt⟩ := Crew.on_task_start_success o net st w task agent did hn hne
    subst hs1
    have hl : dlookup (Crew.on_task_start o net st w task agent).1.active_decisions
        task.pyid = some did := by
      rw [hact]; exact dlookup_dput_self st.active_decisions task.pyid did
    rw [Crew.on_task_end_present o net _ _ task output did hl hne] at hs2
    subst hs2
    have habs : dlookup (dremove
        (Crew.on_task_start o net st w task agent).1.active_decisions task.pyid)
        task.pyid = Option.none :=
      dlookup_dremove_self _ task.pyid
    refine ⟨hflt, ⟨some (Entries.cons "output"
        (if pyTruthy output then PyVal.str ((pyStr output).take 5000)
         else PyVal.none) Entries.nil), ?_⟩, habs, ?_, ?_⟩
    · simp [issued, List.drop_left]
    · rw [Crew.on_task_end_absent o net _ _ task output habs]
      exact issued_refl _
    · rw [Crew.on_task_error_absent o net _ _ task errmsg habs]
      exact issued_refl _
  · intro s1 hfail hs1
    obtain ⟨hst, hflt⟩ := Crew.on_task_start_nostore o net st w task agent hfail
    subst hs1
    have habs : dlookup
        (Crew.on_task_start o net st w task agent).1.active_decisions task.pyid
        = Option.none := by
      rw [hst]; exact hfree
    refine ⟨hst, hflt, ?_, ?_⟩
    · rw [Crew.on_task_end_absent o net _ _ task output habs]
      exact issued_refl _
    · rw [Crew.on_task_error_absent o net _ _ task errmsg habs]
      exact issued_refl _
  · intro t1 ht1
    have habs : dlookup t1.1.run_decisions run_id = Option.none := by
      rw [ht1, LC.on_tool_end_removes net lcst lw run_id outStr]
      exact dlookup_dremove_self _ run_id
    refine ⟨habs, ?_, ?_⟩
    · rw [LC.on_tool_end_absent net t1.1 t1.2 run_id outStr habs]
      exact issued_refl _
    · rw [LC.on_tool_error_absent net t1.1 t1.2 run_id errStr habs]
      exact issued_refl _

/-- Witness for C1 at a concrete scenario: a tool run whose id was stored
under run id `"run-9"`; after `on_tool_end` the table no longer holds the
key. -/
theorem C1_witness :
    dlookup (LC.on_tool_end net0 ⟨[("run-9", "d7")]⟩ w0 "run-9" "ok").1.run_decisions
      "run-9" = Option.none := by
  have h := C1_at_most_one_terminal_transition o0 net0 ⟨[]⟩ w0 task0 agent0
      PyVal.none "boom" ⟨[("run-9", "d7")]⟩ w0 "run-9" "ok" "err" rfl
  exact (h.2.2 (LC.on_tool_end net0 ⟨[("run-9", "d7")]⟩ w0 "run-9" "ok") rfl).1

/-- **C2**: `_log_decision` (propose) and `_transition_decision` (transition)
always return normally and never raise: the `except` handler covers every
exception of the try-body and yields the absent id, propose returns the
remote-assigned id exactly on a 2xx response carrying one and `None` on
every transport/protocol failure, and transition always completes having
issued exactly its one state-change request whatever the response. -/
theorem C2_propose_and_transition_never_raise
    (o : CrewObserver) (hc : LCHandler) (net : Nat → Resp) (w : World)
    (decision_type action : String) (context : Entries)
    (reference_id run_id : Option String)
    (decision_id status : String) (result : Option Entries) :
    (∀ e w1,
      Crew.log_decision_attempt o net w decision_type action context reference_id
          = Except.error (e, w1) →
      Crew.log_decision o net w decision_type action context reference_id
          = (w1, Option.none))
    ∧ (∀ did, net w.counter = Resp.ok (some did) →
      (Crew.log_decision o net w decision_type action context reference_id).2
          = some did
      ∧ (LC.log_decision hc net w decision_type action context run_id).2
          = some did)
    ∧ ((net w.counter = Resp.ok Option.none ∨ net w.counter = Resp.badJson
        ∨ (∃ code, net w.counter = Resp.httpErr code)
        ∨ (∃ msg, net w.counter = Resp.netErr msg)) →
      (Crew.log_decision o net w decision_type action context reference_id).2
          = Option.none
      ∧ (LC.log_decision hc net w decision_type action context run_id).2
          = Option.none)
    ∧ (Crew.transition_decision net w decision_id status result).trace
        = w.trace ++ [Request.transitionReq decision_id status
            (if dictOptTruthy result then result else Option.none)]
    ∧ (LC.transition_decision net w decision_id status result).trace
        = w.trace ++ [Request.transitionReq decision_id status
            (if dictOptTruthy result then result else Option.none)] := by
  refine ⟨?_, ?_, ?_, ?_, ?_⟩
  · intro e w1 heq
    simp [Crew.log_decision, heq]
  · intro did hn
    rw [crew_log_decision_eq, lc_log_decision_eq]
    simp only [hn]
    constructor
    · split <;> rfl
    · split <;> rfl
  · intro hfail
    rw [crew_log_decision_eq, lc_log_decision_eq]
    rcases hfail with hn | hn | ⟨code, hn⟩ | ⟨msg, hn⟩ <;> simp [hn]
  · rfl
  · rfl

/-- Witness for C2: with the store unreachable, propose at a concrete call
returns the absent id. -/
theorem C2_witness :
    (Crew.log_decision o0 netFail w0 "task_execution" "execute_task"
        Entries.nil Option.none).2 = Option.none :=
  ((C2_propose_and_transition_never_raise o0 lc0 netFail w0 "task_execution"
      "execute_task" Entries.nil Option.none Option.none "d1" "executed"
      Option.none).2.2.1
    (Or.inr (Or.inr (Or.inr ⟨"connection refused", rfl⟩)))).1

/-- **C3**: the claim says every public hook is total (never raises into the
host).  The code violates it: `on_tool_use` computes
`self._serialize(tool_output)[:2000]` outside any `try`, and the slice
raises `TypeError` whenever the serialized output is not a string or a list
— e.g. for an integer or a dict tool output — so the exception propagates
into the host's control flow.  This theorem evaluates the embedded hook at
two such inputs. -/
theorem C3_on_tool_use_raises :
    Crew.on_tool_use o0 net0 w0 agent0 "calculator" (PyVal.str "2+2")
        (PyVal.int 4)
      = Except.error "TypeError: object is not subscriptable"
    ∧ Crew.on_tool_use o0 net0 w0 agent0 "search" (PyVal.str "q")
        (PyVal.dict (Entries.cons "hits" (PyVal.int 3) Entries.nil))
      = Except.error "TypeError: object is not subscriptable" := by
  constructor
  · rfl
  · rfl

/-- **C4**: with auto-approve enabled, every propose call that obtains a
(truthy) decision id issues `transition(id, "approved")` before returning,
and — because the oracle is unconstrained at the approve call's index and
the approve call swallows its own failures — the returned id is the
proposed id whatever that second response; with auto-approve disabled no
approve transition is issued.  Stated for the crewai observer and the
middleware client, the code the claim cites. -/
theorem C4_auto_approve_policy
    (o : CrewObserver) (c : MWClient) (net : Nat → Resp) (w : World)
    (decision_type action : String) (context : Entries)
    (reference_id : Option String) (did : String)
    (hn : net w.counter = Resp.ok (some did)) (hne : did ≠ "") :
    (o.auto_approve = true →
      issued w (Crew.log_decision o net w decision_type action context reference_id).1
        = [Request.create (mkPayload o.crew_id decision_type action
            (Crew.ctxOf o w context reference_id)),
           Request.transitionReq did "approved" Option.none]
      ∧ (Crew.log_decision o net w decision_type action context reference_id).2
          = some did)
    ∧ (o.auto_approve = false →
      issued w (Crew.log_decision o net w decision_type action context reference_id).1
        = [Request.create (mkPayload o.crew_id decision_type action
            (Crew.ctxOf o w context reference_id))]
      ∧ (Crew.log_decision o net w decision_type action context reference_id).2
          = some did)
    ∧ (c.auto_approve = true →
      issued w (MW.log_decision c net w decision_type action context).1
        = [Request.create (mkPayload c.agent_id decision_type action
            (MW.ctxOf c w context)),
           Request.transitionReq did "approved" Option.none]
      ∧ (MW.log_decision c net w decision_type action context).2 = some did)
    ∧ (c.auto_approve = false →
      issued w (MW.log_decision c net w decision_type action context).1
        = [Request.create (mkPayload c.agent_id decision_type action
            (MW.ctxOf c w context))]
      ∧ (MW.log_decision c net w decision_type action context).2 = some did) := by
  refine ⟨?_, ?_, ?_, ?_⟩
  · intro ha
    rw [crew_log_decision_eq]
    simp only [hn, ha, Bool.true_and, bne_iff_ne, ne_eq, hne, not_false_eq_true,
      if_true]
    refine ⟨by simp [issued, List.append_assoc, List.drop_left], ?_⟩
    trivial
  · intro ha
    rw [crew_log_decision_eq]
    simp only [hn, ha, Bool.false_and, if_false]
    refine ⟨by simp [issued, List.drop_left], ?_⟩
    trivial
  · intro ha
    rw [mw_log_decision_eq]
    simp only [hn, ha, Bool.true_and, bne_iff_ne, ne_eq, hne, not_false_eq_true,
      if_true]
    refine ⟨by simp [issued, List.append_assoc, List.drop_left], ?_⟩
    trivial
  · intro ha
    rw [mw_log_decision_eq]
    simp only [hn, ha, Bool.false_and, if_false]
    refine ⟨by simp [issued, List.drop_left], ?_⟩
    trivial

/-- Witness for C4: with auto-approve enabled and the store answering id
`"d1"`, a concrete propose issues create-then-approve. -/
theorem C4_witness :
    issued w0 (Crew.log_decision o1 net0 w0 "tool_usage" "search"
        Entries.nil Option.none).1
      = [Request.create (mkPayload o1.crew_id "tool_usage" "search"
          (Crew.ctxOf o1 w0 Entries.nil Option.none)),
         Request.transitionReq "d1" "approved" Option.none] :=
  ((C4_auto_approve_policy o1 mw1 net0 w0 "tool_usage" "search" Entries.nil
      Option.none "d1" rfl (by decide)).1 rfl).1

theorem Crew.on_task_start_counter_no_approve (o : CrewObserver)
    (net : Nat → Resp) (st : CrewState) (w : World) (task : PyTask)
    (agent : PyAgent) (ha : o.auto_approve = false) :
    (Crew.on_task_start o net st w task agent).2.counter = w.counter + 1 := by
  simp only [Crew.on_task_start]
  rw [crew_log_decision_eq]
  cases hn : net w.counter with
  | ok idOpt =>
    cases idOpt with
    | some did =>
      simp only [ha, Bool.false_and, Bool.false_eq_true, if_false]
      split <;> rfl
    | none => split <;> rfl
  | badJson => split <;> rfl
  | httpErr code => split <;> rfl
  | netErr msg => split <;> rfl

/-- **C5**: the active decision table holds at most one live entry per
correlation key (key-uniqueness is preserved by `put` and by the
destructive take), a `put` under an occupied key silently overwrites the
previous decision id, and a subsequent take returns only the most recently
stored id.  The last conjunct shows the overwrite arising through the
cited hook code: two `on_task_start` calls with the same correlation key
leave only the second decision id in the table. -/
theorem C5_table_overwrite_semantics (d : List (String × String))
    (k v v1 v2 : String) (o : CrewObserver) (net : Nat → Resp) (st : CrewState)
    (w : World) (task : PyTask) (agent : PyAgent) (did1 did2 : String)
    (h : (d.map Prod.fst).Nodup) :
    ((dput d k v).map Prod.fst).Nodup
    ∧ (((dpop d k).2).map Prod.fst).Nodup
    ∧ dlookup (dput d k v) k = some v
    ∧ (dpop (dput (dput d k v1) k v2) k).1 = some v2
    ∧ (o.auto_approve = false →
       net w.counter = Resp.ok (some did1) → did1 ≠ "" →
       net (w.counter + 1) = Resp.ok (some did2) → did2 ≠ "" →
       ∀ s1 s2, s1 = Crew.on_task_start o net st w task agent →
         s2 = Crew.on_task_start o net s1.1 s1.2 task agent →
         dlookup s2.1.active_decisions task.pyid = some did2) := by
  refine ⟨dput_nodup d k v h, dpop_nodup d k h, dlookup_dput_self d k v, ?_, ?_⟩
  · show dlookup (dput (dput d k v1) k v2) k = some v2
    exact dlookup_dput_self _ k v2
  · intro ha hn1 hne1 hn2 hne2 s1 s2 hs1 hs2
    subst hs1
    obtain ⟨hact1, _⟩ := Crew.on_task_start_success o net st w task agent did1 hn1 hne1
    have hc : net (Crew.on_task_start o net st w task agent).2.counter
        = Resp.ok (some did2) := by
      rw [Crew.on_task_start_counter_no_approve o net st w task agent ha]
      exact hn2
    obtain ⟨hact2, _⟩ := Crew.on_task_start_success o net
      (Crew.on_task_start o net st w task agent).1
      (Crew.on_task_start o net st w task agent).2 task agent did2 hc hne2
    subst hs2
    rw [hact2, hact1]
    exact dlookup_dput_self _ task.pyid did2

/-- Witness for C5 at a concrete table: overwriting key `"t"` makes the take
return the second id. -/
theorem C5_witness :
    (dpop (dput (dput [("a", "x")] "t" "i1") "t" "i2") "t").1 = some "i2" :=
  (C5_table_overwrite_semantics [("a", "x")] "t" "x" "i1" "i2" o0 net0
    ⟨[]⟩ w0 task0 agent0 "d1" "d1" (by simp)).2.2.2.1

/-! ### JSON-safety and usable-exports predicates for the serializer -/

mutual

/-- Values built only from `None`, strings, integers, floats, booleans,
lists, and string-keyed mappings of such values. -/
def jsonSafe : PyVal → Bool
  | .none => true
  | .str _ => true
  | .int _ => true
  | .float _ => true
  | .bool _ => true
  | .dict es => jsonSafeEntries es
  | .list xs => jsonSafeVals xs
  | .tuple _ => false
  | .objDict _ _ => false
  | .objDictNotCallable _ => false
  | .objDictRaises _ _ => false
  | .objAttrs _ _ => false
  | .other _ => false

def jsonSafeEntries : Entries → Bool
  | .nil => true
  | .cons _ v rest => jsonSafe v && jsonSafeEntries rest

def jsonSafeVals : Vals → Bool
  | .nil => true
  | .cons v rest => jsonSafe v && jsonSafeVals rest

end

mutual

/-- No object anywhere inside the value has an unusable `dict` attribute
(non-callable, or a `dict()` method that raises). -/
def exportsUsable : PyVal → Bool
  | .none => true
  | .str _ => true
  | .int _ => true
  | .float _ => true
  | .bool _ => true
  | .dict es => exportsUsableEntries es
  | .list xs => exportsUsableVals xs
  | .tuple xs => exportsUsableVals xs
  | .objDict e _ => exportsUsable e
  | .objDictNotCallable _ => false
  | .objDictRaises _ _ => false
  | .objAttrs es _ => exportsUsableEntries es
  | .other _ => true

def exportsUsableEntries : Entries → Bool
  | .nil => true
  | .cons _ v rest => exportsUsable v && exportsUsableEntries rest

def exportsUsableVals : Vals → Bool
  | .nil => true
  | .cons v rest => exportsUsable v && exportsUsableVals rest

end

mutual

theorem serialize_ok_of_jsonSafe :
    ∀ v : PyVal, jsonSafe v = true → serialize v = Except.ok v
  | .none, _ => rfl
  | .str _, _ => rfl
  | .int _, _ => rfl
  | .float _, _ => rfl
  | .bool _, _ => rfl
  | .dict es, h => by
    have h2 := serializeEntries_ok_of_jsonSafe es (by simpa [jsonSafe] using h)
    simp [serialize, h2, Except.map]
  | .list xs, h => by
    have h2 := serializeVals_ok_of_jsonSafe xs (by simpa [jsonSafe] using h)
    simp [serialize, h2, Except.map]

theorem serializeEntries_ok_of_jsonSafe :
    ∀ es : Entries, jsonSafeEntries es = true → serializeEntries es = Except.ok es
  | .nil, _ => rfl
  | .cons k v rest, h => by
    have hs : jsonSafe v = true ∧ jsonSafeEntries rest = true := by
      simpa [jsonSafeEntries, Bool.and_eq_true] using h
    have h1 := serialize_ok_of_jsonSafe v hs.1
    have h2 := serializeEntries_ok_of_jsonSafe rest hs.2
    simp only [serializeEntries, h1, h2]
    rfl

theorem serializeVals_ok_of_jsonSafe :
    ∀ xs : Vals, jsonSafeVals xs = true → serializeVals xs = Except.ok xs
  | .nil, _ => rfl
  | .cons v rest, h => by
    have hs : jsonSafe v = true ∧ jsonSafeVals rest = true := by
      simpa [jsonSafeVals, Bool.and_eq_true] using h
    have h1 := serialize_ok_of_jsonSafe v hs.1
    have h2 := serializeVals_ok_of_jsonSafe rest hs.2
    simp only [serializeVals, h1, h2]
    rfl

end

/-- **C6**: the generic serializer is the identity on already-JSON-safe
input (values built only from `None`, strings, integers, floats, booleans,
lists, and string-keyed mappings of such values), and hence idempotent on
it: serializing the result again returns the same value. -/
theorem C6_serializer_idempotent_on_json_safe (v : PyVal)
    (h : jsonSafe v = true) :
    serialize v = Except.ok v
    ∧ ∀ v2, serialize v = Except.ok v2 → serialize v2 = Except.ok v2 := by
  have h1 := serialize_ok_of_jsonSafe v h
  refine ⟨h1, fun v2 h2 => ?_⟩
  rw [h1] at h2
  cases h2
  exact h1

/-- Witness for C6 at a concrete JSON-safe mapping. -/
theorem C6_witness :
    serialize (PyVal.dict (Entries.cons "a" (PyVal.int 1)
        (Entries.cons "b" (PyVal.list (Vals.cons (PyVal.str "x")
          (Vals.cons (PyVal.bool true) Vals.nil))) Entries.nil)))
      = Except.ok (PyVal.dict (Entries.cons "a" (PyVal.int 1)
        (Entries.cons "b" (PyVal.list (Vals.cons (PyVal.str "x")
          (Vals.cons (PyVal.bool true) Vals.nil))) Entries.nil))) :=
  (C6_serializer_idempotent_on_json_safe
    (PyVal.dict (Entries.cons "a" (PyVal.int 1)
      (Entries.cons "b" (PyVal.list (Vals.cons (PyVal.str "x")
        (Vals.cons (PyVal.bool true) Vals.nil))) Entries.nil))) rfl).1

mutual

theorem serialize_ok_of_usable :
    ∀ v : PyVal, exportsUsable v = true → ∃ r, serialize v = Except.ok r
  | .none, _ => ⟨.none, rfl⟩
  | .str s, _ => ⟨.str s, rfl⟩
  | .int n, _ => ⟨.int n, rfl⟩
  | .float lit, _ => ⟨.float lit, rfl⟩
  | .bool b, _ => ⟨.bool b, rfl⟩
  | .dict es, h => by
    obtain ⟨es2, h2⟩ :=
      serializeEntries_ok_of_usable es (by simpa [exportsUsable] using h)
    exact ⟨.dict es2, by simp [serialize, h2, Except.map]⟩
  | .list xs, h => by
    obtain ⟨xs2, h2⟩ :=
      serializeVals_ok_of_usable xs (by simpa [exportsUsable] using h)
    exact ⟨.list xs2, by simp [serialize, h2, Except.map]⟩
  | .tuple xs, h => by
    obtain ⟨xs2, h2⟩ :=
      serializeVals_ok_of_usable xs (by simpa [exportsUsable] using h)
    exact ⟨.list xs2, by simp [serialize, h2, Except.map]⟩
  | .objDict e r, h =>
    serialize_ok_of_usable e (by simpa [exportsUsable] using h)
  | .objAttrs es r, h => by
    obtain ⟨es2, h2⟩ :=
      serializeEntries_ok_of_usable es (by simpa [exportsUsable] using h)
    exact ⟨.dict es2, by simp [serialize, h2, Except.map]⟩
  | .other r, _ => ⟨.str r, rfl⟩

theorem serializeEntries_ok_of_usable :
    ∀ es : Entries, exportsUsableEntries es = true →
      ∃ es2, serializeEntries es = Except.ok es2
  | .nil, _ => ⟨.nil, rfl⟩
  | .cons k v rest, h => by
    have hs : exportsUsable v = true ∧ exportsUsableEntries rest = true := by
      simpa [exportsUsableEntries, Bool.and_eq_true] using h
    obtain ⟨v2, h1⟩ := serialize_ok_of_usable v hs.1
    obtain ⟨rest2, h2⟩ := serializeEntries_ok_of_usable rest hs.2
    refine ⟨.cons k v2 rest2, ?_⟩
    simp only [serializeEntries, h1, h2]
    rfl

theorem serializeVals_ok_of_usable :
    ∀ xs : Vals, exportsUsableVals xs = true →
      ∃ xs2, serializeVals xs = Except.ok xs2
  | .nil, _ => ⟨.nil, rfl⟩
  | .cons v rest, h => by
    have hs : exportsUsable v = true ∧ exportsUsableVals rest = true := by
      simpa [exportsUsableVals, Bool.and_eq_true] using h
    obtain ⟨v2, h1⟩ := serialize_ok_of_usable v hs.1
    obtain ⟨rest2, h2⟩ := serializeVals_ok_of_usable rest hs.2
    refine ⟨.cons v2 rest2, ?_⟩
    simp only [serializeVals, h1, h2]
    rfl

end

/-- Counterexample to **C7** as stated: the serializer is not total.  For an
object whose `dict` attribute exists but is not callable, `hasattr(obj,
"dict")` is true and `obj.dict()` raises `TypeError`, which `_serialize`
does not catch — the value is not downgraded to its display string. -/
theorem C7_counterexample :
    serialize (PyVal.objDictNotCallable "<Config object>")
      = Except.error "TypeError: object attribute dict is not callable"
    ∧ ¬ ∃ r, serialize (PyVal.objDictNotCallable "<Config object>")
        = Except.ok r := by
  refine ⟨rfl, ?_⟩
  rintro ⟨r, hr⟩
  exact Except.noConfusion hr

/-- **C7 as amended**: the serializer returns a value without raising for
every input whose export-as-mapping capability, wherever present, is a
callable that returns normally; values that cannot be decomposed into
primitives/sequences/mappings are downgraded to their display string.  (As
stated the claim is false: an object with an unusable — non-callable or
raising — `dict` attribute makes the serializer raise, see the
counterexample.) -/
theorem C7_serializer_total_when_exports_usable (v : PyVal)
    (h : exportsUsable v = true) :
    (∃ r, serialize v = Except.ok r)
    ∧ ∀ s, serialize (PyVal.other s) = Except.ok (PyVal.str s) :=
  ⟨serialize_ok_of_usable v h, fun _ => rfl⟩

/-- Witness for the amended C7 at a concrete attribute-bag object. -/
theorem C7_witness :
    ∃ r, serialize (PyVal.objAttrs (Entries.cons "x" (PyVal.int 1) Entries.nil)
        "<A object>") = Except.ok r :=
  (C7_serializer_total_when_exports_usable
    (PyVal.objAttrs (Entries.cons "x" (PyVal.int 1) Entries.nil) "<A object>")
    rfl).1

theorem serializeG_cyc_none (n : Nat) :
    serializeG cycHeap n (GVal.ref 0) = Option.none
    ∧ serializeGEntries cycHeap n [("self", GVal.ref 0)] = Option.none := by
  induction n with
  | zero => exact ⟨rfl, rfl⟩
  | succ m ih =>
    constructor
    · show (serializeGEntries cycHeap m (cycHeap 0)).map PyVal.dict = Option.none
      rw [show cycHeap 0 = [("self", GVal.ref 0)] from rfl, ih.2]
      rfl
    · show (do
        let v2 ← serializeG cycHeap m (GVal.ref 0)
        let rest2 ← serializeGEntries cycHeap m []
        some (Entries.cons "self" v2 rest2)) = Option.none
      rw [ih.1]
      rfl

/-- Counterexample to **C8** as stated: on the self-referential
attribute-bag object (object `0`, whose `__dict__` contains a reference to
itself) the serializer's recursion completes under no budget at all — there
is no depth/cycle guard, so serialization never returns a value. -/
theorem C8_counterexample :
    ¬ ∃ (fuel : Nat) (r : PyVal),
      serializeG cycHeap fuel (GVal.ref 0) = some r := by
  rintro ⟨n, r, hr⟩
  rw [(serializeG_cyc_none n).1] at hr
  cases hr

/-- **C8 as amended**: the serializer has no depth or cycle guard.  On the
self-referential attribute-bag object its recursion exceeds every finite
budget `n` (in Python, `RecursionError` — the call never returns a value),
while on an acyclic heap it terminates once the budget covers the nesting
depth.  (As stated the claim is false — it asserts termination on cyclic
graphs via a guard the code does not have; see the counterexample.) -/
theorem C8_unguarded_recursion (n : Nat) :
    serializeG cycHeap n (GVal.ref 0) = Option.none
    ∧ serializeG acycHeap 3 (GVal.ref 0)
        = some (PyVal.dict (Entries.cons "x" (PyVal.int 7) Entries.nil)) :=
  ⟨(serializeG_cyc_none n).1, rfl⟩

/-! ### Context construction lemmas -/

theorem lookup_merged_base (context metadata : Entries) (k : String) :
    Entries.lookupE ((Entries.nil.insertAll context).insertAll metadata) k
      = match Entries.lookupLast metadata k with
        | some v => some v
        | Option.none =>
          match Entries.lookupLast context k with
          | some v => some v
          | Option.none => Option.none := by
  rw [Entries.lookupE_insertAll, Entries.lookupE_insertAll]
  cases metadata.lookupLast k <;> cases context.lookupLast k <;>
    simp [Entries.lookupE]

theorem crew_ctxOf_ts (o : CrewObserver) (w : World) (context : Entries)
    (reference_id : Option String) :
    Entries.lookupE (Crew.ctxOf o w context reference_id) "timestamp"
      = some (PyVal.str w.now) := by
  simp only [Crew.ctxOf]
  cases reference_id with
  | none =>
    rw [Entries.lookupE_insertE, if_neg (by decide),
      Entries.lookupE_insertE, if_pos rfl]
  | some rid =>
    by_cases hr : rid != ""
    · simp only [hr, if_true]
      rw [Entries.lookupE_insertE, if_neg (by decide),
        Entries.lookupE_insertE, if_neg (by decide),
        Entries.lookupE_insertE, if_pos rfl]
    · simp only [Bool.not_eq_true] at hr
      simp only [hr, Bool.false_eq_true, if_false]
      rw [Entries.lookupE_insertE, if_neg (by decide),
        Entries.lookupE_insertE, if_pos rfl]

theorem crew_ctxOf_src (o : CrewObserver) (w : World) (context : Entries)
    (reference_id : Option String) :
    Entries.lookupE (Crew.ctxOf o w context reference_id) "source"
      = some (PyVal.str "crewai") := by
  simp only [Crew.ctxOf]
  cases reference_id with
  | none => rw [Entries.lookupE_insertE, if_pos rfl]
  | some rid =>
    by_cases hr : rid != ""
    · simp only [hr, if_true]
      rw [Entries.lookupE_insertE, if_neg (by decide),
        Entries.lookupE_insertE, if_pos rfl]
    · simp only [Bool.not_eq_true] at hr
      simp only [hr, Bool.false_eq_true, if_false]
      rw [Entries.lookupE_insertE, if_pos rfl]

theorem crew_ctxOf_other (o : CrewObserver) (w : World) (context : Entries)
    (reference_id : Option String) (k : String)
    (h1 : k ≠ "timestamp") (h2 : k ≠ "source")
    (h3 : ∀ r, reference_id = some r → r ≠ "" → k ≠ "reference_id") :
    Entries.lookupE (Crew.ctxOf o w context reference_id) k
      = match Entries.lookupLast o.metadata k with
        | some v => some v
        | Option.none =>
          match Entries.lookupLast context k with
          | some v => some v
          | Option.none => Option.none := by
  simp only [Crew.ctxOf]
  cases reference_id with
  | none =>
    rw [Entries.lookupE_insertE, if_neg h2, Entries.lookupE_insertE, if_neg h1]
    exact lookup_merged_base context o.metadata k
  | some rid =>
    by_cases hr : rid != ""
    · have hk := h3 rid rfl (by simpa [bne_iff_ne] using hr)
      simp only [hr, if_true]
      rw [Entries.lookupE_insertE, if_neg hk, Entries.lookupE_insertE,
        if_neg h2, Entries.lookupE_insertE, if_neg h1]
      exact lookup_merged_base context o.metadata k
    · simp only [Bool.not_eq_true] at hr
      simp only [hr, Bool.false_eq_true, if_false]
      rw [Entries.lookupE_insertE, if_neg h2, Entries.lookupE_insertE, if_neg h1]
      exact lookup_merged_base context o.metadata k

theorem crew_ctxOf_refkey (o : CrewObserver) (w : World) (context : Entries)
    (r : String) (hr : r ≠ "") :
    Entries.lookupE (Crew.ctxOf o w context (some r)) "reference_id"
      = some (PyVal.str r) := by
  simp only [Crew.ctxOf]
  have hb : (r != "") = true := by simpa [bne_iff_ne] using hr
  simp only [hb, if_true]
  rw [Entries.lookupE_insertE, if_pos rfl]

theorem lc_ctxOf_ts (h : LCHandler) (w : World) (context : Entries)
    (run_id : Option String) :
    Entries.lookupE (LC.ctxOf h w context run_id) "timestamp"
      = some (PyVal.str w.now) := by
  simp only [LC.ctxOf]
  cases run_id with
  | none =>
    rw [Entries.lookupE_insertE, if_neg (by decide),
      Entries.lookupE_insertE, if_pos rfl]
  | some rid =>
    by_cases hr : rid != ""
    · simp only [hr, if_true]
      rw [Entries.lookupE_insertE, if_neg (by decide),
        Entries.lookupE_insertE, if_neg (by decide),
        Entries.lookupE_insertE, if_pos rfl]
    · simp only [Bool.not_eq_true] at hr
      simp only [hr, Bool.false_eq_true, if_false]
      rw [Entries.lookupE_insertE, if_neg (by decide),
        Entries.lookupE_insertE, if_pos rfl]

theorem lc_ctxOf_src (h : LCHandler) (w : World) (context : Entries)
    (run_id : Option String) :
    Entries.lookupE (LC.ctxOf h w context run_id) "source"
      = some (PyVal.str "langchain") := by
  simp only [LC.ctxOf]
  cases run_id with
  | none => rw [Entries.lookupE_insertE, if_pos rfl]
  | some rid =>
    by_cases hr : rid != ""
    · simp only [hr, if_true]
      rw [Entries.lookupE_insertE, if_neg (by decide),
        Entries.lookupE_insertE, if_pos rfl]
    · simp only [Bool.not_eq_true] at hr
      simp only [hr, Bool.false_eq_true, if_false]
      rw [Entries.lookupE_insertE, if_pos rfl]

theorem lc_ctxOf_other (h : LCHandler) (w : World) (context : Entries)
    (run_id : Option String) (k : String)
    (h1 : k ≠ "timestamp") (h2 : k ≠ "source")
    (h3 : ∀ r, run_id = some r → r ≠ "" → k ≠ "run_id") :
    Entries.lookupE (LC.ctxOf h w context run_id) k
      = match Entries.lookupLast h.metadata k with
        | some v => some v
        | Option.none =>
          match Entries.lookupLast context k with
          | some v => some v
          | Option.none => Option.none := by
  simp only [LC.ctxOf]
  cases run_id with
  | none =>
    rw [Entries.lookupE_insertE, if_neg h2, Entries.lookupE_insertE, if_neg h1]
    exact lookup_merged_base context h.metadata k
  | some rid =>
    by_cases hr : rid != ""
    · have hk := h3 rid rfl (by simpa [bne_iff_ne] using hr)
      simp only [hr, if_true]
      rw [Entries.lookupE_insertE, if_neg hk, Entries.lookupE_insertE,
        if_neg h2, Entries.lookupE_insertE, if_neg h1]
      exact lookup_merged_base context h.metadata k
    · simp only [Bool.not_eq_true] at hr
      simp only [hr, Bool.false_eq_true, if_false]
      rw [Entries.lookupE_insertE, if_neg h2, Entries.lookupE_insertE, if_neg h1]
      exact lookup_merged_base context h.metadata k

theorem lc_ctxOf_runkey (h : LCHandler) (w : World) (context : Entries)
    (r : String) (hr : r ≠ "") :
    Entries.lookupE (LC.ctxOf h w context (some r)) "run_id"
      = some (PyVal.str r) := by
  simp only [LC.ctxOf]
  have hb : (r != "") = true := by simpa [bne_iff_ne] using hr
  simp only [hb, if_true]
  rw [Entries.lookupE_insertE, if_pos rfl]

theorem mw_ctxOf_ts (c : MWClient) (w : World) (context : Entries) :
    Entries.lookupE (MW.ctxOf c w context) "timestamp"
      = some (PyVal.str w.now) := by
  simp only [MW.ctxOf]
  rw [Entries.lookupE_insertE, if_neg (by decide),
    Entries.lookupE_insertE, if_pos rfl]

theorem mw_ctxOf_src (c : MWClient) (w : World) (context : Entries) :
    Entries.lookupE (MW.ctxOf c w context) "source"
      = some (PyVal.str "langchain-v1") := by
  simp only [MW.ctxOf]
  rw [Entries.lookupE_insertE, if_pos rfl]

/-- An observer fixture carrying instance-level metadata. -/
def oM : CrewObserver :=
  ⟨"crew-1", false, true, true, Entries.cons "team" (PyVal.str "alpha") Entries.nil⟩

/-- **C9**: every propose call sends (first, whatever the response) a
creation request whose body has exactly the keys `agent_id`, `type`,
`action`, `status`, `context`, with `status` the literal `"proposed"`; the
context always holds the generated `timestamp` (the UTC ISO string of the
call) and the adapter `source` tag, and the instance-level metadata is
merged into it.  Stated for the crewai observer and the middleware client,
the code the claim cites. -/
theorem C9_propose_creation_request
    (o : CrewObserver) (c : MWClient) (net : Nat → Resp) (w : World)
    (decision_type action : String) (context : Entries)
    (reference_id : Option String) :
    (∃ rest,
      (Crew.log_decision o net w decision_type action context reference_id).1.trace
        = w.trace ++ Request.create (mkPayload o.crew_id decision_type action
            (Crew.ctxOf o w context reference_id)) :: rest)
    ∧ (∃ rest, (MW.log_decision c net w decision_type action context).1.trace
        = w.trace ++ Request.create (mkPayload c.agent_id decision_type action
            (MW.ctxOf c w context)) :: rest)
    ∧ (∀ aid t a ctx,
        Entries.keys (mkPayload aid t a ctx)
          = ["agent_id", "type", "action", "status", "context"]
        ∧ Entries.lookupE (mkPayload aid t a ctx) "status"
            = some (PyVal.str "proposed")
        ∧ Entries.lookupE (mkPayload aid t a ctx) "agent_id"
            = some (PyVal.str aid)
        ∧ Entries.lookupE (mkPayload aid t a ctx) "context"
            = some (PyVal.dict ctx))
    ∧ Entries.lookupE (Crew.ctxOf o w context reference_id) "timestamp"
        = some (PyVal.str w.now)
    ∧ Entries.lookupE (Crew.ctxOf o w context reference_id) "source"
        = some (PyVal.str "crewai")
    ∧ Entries.lookupE (MW.ctxOf c w context) "timestamp" = some (PyVal.str w.now)
    ∧ Entries.lookupE (MW.ctxOf c w context) "source"
        = some (PyVal.str "langchain-v1")
    ∧ (∀ k v, Entries.lookupLast o.metadata k = some v → k ≠ "timestamp" →
        k ≠ "source" → (∀ r, reference_id = some r → r ≠ "" → k ≠ "reference_id") →
        Entries.lookupE (Crew.ctxOf o w context reference_id) k = some v)
    ∧ (∀ k v, Entries.lookupLast c.metadata k = some v → k ≠ "timestamp" →
        k ≠ "source" →
        Entries.lookupE (MW.ctxOf c w context) k = some v) := by
  refine ⟨?_, ?_, ?_, crew_ctxOf_ts o w context reference_id,
    crew_ctxOf_src o w context reference_id, mw_ctxOf_ts c w context,
    mw_ctxOf_src c w context, ?_, ?_⟩
  · rw [crew_log_decision_eq]
    cases hn : net w.counter with
    | ok idOpt =>
      cases idOpt with
      | some did =>
        by_cases hd : o.auto_approve && did != ""
        · exact ⟨[Request.transitionReq did "approved" Option.none],
            by simp [hd, List.append_assoc]⟩
        · exact ⟨[], by simp [hd]⟩
      | none => exact ⟨[], by simp⟩
    | badJson => exact ⟨[], by simp⟩
    | httpErr code => exact ⟨[], by simp⟩
    | netErr msg => exact ⟨[], by simp⟩
  · rw [mw_log_decision_eq]
    cases hn : net w.counter with
    | ok idOpt =>
      cases idOpt with
      | some did =>
        by_cases hd : c.auto_approve && did != ""
        · exact ⟨[Request.transitionReq did "approved" Option.none],
            by simp [hd, List.append_assoc]⟩
        · exact ⟨[], by simp [hd]⟩
      | none => exact ⟨[], by simp⟩
    | badJson => exact ⟨[], by simp⟩
    | httpErr code => exact ⟨[], by simp⟩
    | netErr msg => exact ⟨[], by simp⟩
  · intro aid t a ctx
    exact ⟨rfl, rfl, rfl, rfl⟩
  · intro k v hv h1 h2 h3
    rw [crew_ctxOf_other o w context reference_id k h1 h2 h3, hv]
  · intro k v hv h1 h2
    have base := lookup_merged_base context c.metadata k
    simp only [MW.ctxOf]
    rw [Entries.lookupE_insertE, if_neg h2, Entries.lookupE_insertE, if_neg h1,
      base, hv]

/-- Witness for C9: the generated source tag and a merged metadata key at a
concrete call. -/
theorem C9_witness :
    Entries.lookupE (Crew.ctxOf oM w0 Entries.nil Option.none) "team"
      = some (PyVal.str "alpha") :=
  (C9_propose_creation_request oM mw1 net0 w0 "task_execution" "execute_task"
      Entries.nil Option.none).2.2.2.2.2.2.2.1 "team" (PyVal.str "alpha")
    rfl (by decide) (by decide) (fun r hr _ => Option.noConfusion hr)

/-- An observer fixture whose instance metadata binds the key
`"reference_id"`. -/
def oMeta : CrewObserver :=
  ⟨"crew-1", false, true, true,
    Entries.cons "reference_id" (PyVal.str "meta-ref") Entries.nil⟩

/-- Counterexample to **C10** as stated: the claim says that for any key
present in both the caller context and the instance metadata, the metadata
value wins in the propose payload's context.  For the key `"reference_id"`
this is false whenever a truthy reference id argument is supplied: line
135-136 of the observer writes `payload["context"]["reference_id"] =
reference_id` after the merge, so neither the metadata value `"meta-ref"`
nor the caller-context value `"ctx-ref"` survives — the argument
`"140230"` does. -/
theorem C10_counterexample :
    Entries.lookupLast oMeta.metadata "reference_id"
        = some (PyVal.str "meta-ref")
    ∧ Entries.lookupLast
        (Entries.cons "reference_id" (PyVal.str "ctx-ref") Entries.nil)
        "reference_id" = some (PyVal.str "ctx-ref")
    ∧ Entries.lookupE (Crew.ctxOf oMeta w0
        (Entries.cons "reference_id" (PyVal.str "ctx-ref") Entries.nil)
        (some "140230")) "reference_id" = some (PyVal.str "140230")
    ∧ PyVal.str "140230" ≠ PyVal.str "meta-ref" := by
  refine ⟨rfl, rfl, rfl, ?_⟩
  intro h
  simp at h

/-- **C10 as amended**: the propose context is built by merging, in order,
the caller-supplied context, the instance metadata, and then the generated
`timestamp` and `source` fields — so metadata beats caller context and the
generated `timestamp`/`source` beat both — EXCEPT that when a truthy
correlation-reference argument is supplied, its key (`"reference_id"` for
the crewai observer, `"run_id"` for the callback) is written after the
merge and overwrites whatever the merge produced there. -/
theorem C10_context_merge_rules
    (o : CrewObserver) (hc : LCHandler) (w : World) (context : Entries)
    (reference_id run_id : Option String) (k : String) :
    Entries.lookupE (Crew.ctxOf o w context reference_id) "timestamp"
        = some (PyVal.str w.now)
    ∧ Entries.lookupE (Crew.ctxOf o w context reference_id) "source"
        = some (PyVal.str "crewai")
    ∧ Entries.lookupE (LC.ctxOf hc w context run_id) "timestamp"
        = some (PyVal.str w.now)
    ∧ Entries.lookupE (LC.ctxOf hc w context run_id) "source"
        = some (PyVal.str "langchain")
    ∧ (k ≠ "timestamp" → k ≠ "source" →
       (∀ r, reference_id = some r → r ≠ "" → k ≠ "reference_id") →
       Entries.lookupE (Crew.ctxOf o w context reference_id) k
         = match Entries.lookupLast o.metadata k with
           | some v => some v
           | Option.none =>
             match Entries.lookupLast context k with
             | some v => some v
             | Option.none => Option.none)
    ∧ (k ≠ "timestamp" → k ≠ "source" →
       (∀ r, run_id = some r → r ≠ "" → k ≠ "run_id") →
       Entries.lookupE (LC.ctxOf hc w context run_id) k
         = match Entries.lookupLast hc.metadata k with
           | some v => some v
           | Option.none =>
             match Entries.lookupLast context k with
             | some v => some v
             | Option.none => Option.none)
    ∧ (∀ r, reference_id = some r → r ≠ "" →
       Entries.lookupE (Crew.ctxOf o w context reference_id) "reference_id"
         = some (PyVal.str r))
    ∧ (∀ r, run_id = some r → r ≠ "" →
       Entries.lookupE (LC.ctxOf hc w context run_id) "run_id"
         = some (PyVal.str r)) := by
  refine ⟨crew_ctxOf_ts o w context reference_id,
    crew_ctxOf_src o w context reference_id,
    lc_ctxOf_ts hc w context run_id,
    lc_ctxOf_src hc w context run_id, ?_, ?_, ?_, ?_⟩
  · intro h1 h2 h3
    exact crew_ctxOf_other o w context reference_id k h1 h2 h3
  · intro h1 h2 h3
    exact lc_ctxOf_other hc w context run_id k h1 h2 h3
  · intro r hr hne
    subst hr
    exact crew_ctxOf_refkey o w context r hne
  · intro r hr hne
    subst hr
    exact lc_ctxOf_runkey hc w context r hne

/-- Witness for the amended C10: at a concrete call whose metadata and
caller context both bind `"reference_id"`, the post-merge write wins. -/
theorem C10_witness :
    Entries.lookupE (Crew.ctxOf oMeta w0
        (Entries.cons "reference_id" (PyVal.str "ctx-ref") Entries.nil)
        (some "140230")) "reference_id" = some (PyVal.str "140230") :=
  (C10_context_merge_rules oMeta lc0 w0
      (Entries.cons "reference_id" (PyVal.str "ctx-ref") Entries.nil)
      (some "140230") (some "run-1") "x").2.2.2.2.2.2.1 "140230" rfl (by decide)
